import Mathlib

/-!
# Arm controller simulator: dispatch, connection state and pose synthesis

A shallow embedding of `ArmController.cpp`, `ArmController.hpp` and
`ArmControllerRouterTable.cpp`.

Conventions of the embedding.

* A member function of `ArmController` becomes a function that takes the
  controller value and returns the value it hands back together with the
  updated controller (only the controller for a `void` function, unless the
  absence of a result is itself of interest).
* `state_mutex_`, the log statements and the one second `sleep_for` have no
  effect on the sequential behaviour and are left out.
* Numeric identifiers (`uint16_t`, `uint8_t`) are natural numbers: they are
  only compared and passed on. The pose indices are C++ `int`s: integers
  with an explicit 32-bit two's-complement wrap at the increment.
* `double` and `float` values are rationals: the arithmetic is the exact one,
  rounding is outside the model.
* Headers that are not among the sources (`message/MessageFrame.hpp`,
  `message/PoseItem.hpp`, `message/MessageRouter.hpp`,
  `runtime/transport/zmq/ZmqPeer.hpp`) enter as parameters (`Constants`,
  `External`, `Lifecycle`) or as definitions marked as modelled from the
  specification.
* An exception thrown inside `Initialize` is an outcome chosen by `Lifecycle`;
  the dereference of a null `peer_` in `Start` is the result `none`.
-/

namespace perception

/-! ## Constants of `message/MessageFrame.hpp` -/

/-- Numeric values of the `MessageIds::` constants the controller names.
The header is not among the sources, so the values are a parameter. -/
structure MessageIds where
  START_CHARGING : Nat
  CALIBRATION : Nat
  RESET : Nat
  EMERGENCY_STOP : Nat
  EMERGENCY_STOP_RECOVERY : Nat
  MANUAL_REMOTE_CONTROL : Nat
  deriving DecidableEq, Repr

/-- Numeric values of the `SubMessageIds::` constants the controller names. -/
structure SubMessageIds where
  IDLE : Nat
  DEVICE_SELF_CHECK : Nat
  OPEN_COVER : Nat
  ARM_MOVING_TO_INIT_POSITION : Nat
  ARM_MOVING_TO_TARGET_POSITION : Nat
  ARM_MOVING_TO_CALIB_POSITION : Nat
  ARM_MOVING_TO_RESET_POSITION : Nat
  PATH_PLANNING : Nat
  CHARGING_INSERTION : Nat
  CONNECTION_VERIFICATION : Nat
  CHARGING_REMOVAL : Nat
  CLOSE_COVER : Nat
  deriving DecidableEq, Repr

/-- Numeric values of the `StatusCode::` constants the controller names. -/
structure StatusCode where
  PROCESSING : Nat
  COMPLETED : Nat
  deriving DecidableEq, Repr

/-- The three families of named constants, bundled. -/
structure Constants where
  MessageIds : MessageIds
  SubMessageIds : SubMessageIds
  StatusCode : StatusCode
  deriving DecidableEq, Repr

/-! ## Data model -/

/-- The composite key of a request: `MessageKey` of `message/MessageFrame.hpp`. -/
structure MessageKey where
  message_id : Nat
  sub_message_id : Nat
  status : Nat
  deriving DecidableEq, Repr

/-- Modelled from the spec: the `EventState` enumeration of
`message/EventState.hpp`, which is not among the sources. The controller
stores `DEVICE_IDLE` and `DEVICE_DISCONNECTED`; every other member is a value
packed by `MakeEventState` from a message id, a sub id and a status. -/
inductive EventState where
  | DEVICE_IDLE
  | DEVICE_DISCONNECTED
  | packed (message_id sub_id status : Nat)
  deriving DecidableEq, Repr

/-- Modelled from the spec: `PoseItem::Position`, three coordinates. -/
structure PoseItem.Position where
  x : ℚ
  y : ℚ
  z : ℚ
  deriving DecidableEq

/-- Modelled from the spec: `PoseItem::Rotation`, three angles. -/
structure PoseItem.Rotation where
  x : ℚ
  y : ℚ
  z : ℚ
  deriving DecidableEq

/-- Modelled from the spec: `PoseItem` of `message/PoseItem.hpp` (not among
the sources): a position, a rotation and a confidence. -/
structure PoseItem where
  position : PoseItem.Position
  rotation : PoseItem.Rotation
  confidence : ℚ
  deriving DecidableEq

/-- Modelled from the spec: `PoseItem::Reset` and the default constructor of
`PoseItem`: all coordinates zero, confidence 0 (no valid pose). -/
def PoseItem.Reset : PoseItem :=
  { position := ⟨0, 0, 0⟩, rotation := ⟨0, 0, 0⟩, confidence := 0 }

/-- Four bytes, the wire image of one `float`. -/
structure FloatBytes where
  b0 : Nat
  b1 : Nat
  b2 : Nat
  b3 : Nat
  deriving DecidableEq, Repr

/-- The four bytes in wire order. -/
def FloatBytes.toList (f : FloatBytes) : List Nat := [f.b0, f.b1, f.b2, f.b3]

/-- Modelled from the spec: `PoseItem::SerializeToPayload` (not among the
sources). The payload is the fixed layout of six 4-byte floating values,
position x, y, z then rotation x, y, z; `enc` is the encoding of one value. -/
def PoseItem.SerializeToPayload (enc : ℚ → FloatBytes) (p : PoseItem) : List Nat :=
  (enc p.position.x).toList ++ (enc p.position.y).toList ++ (enc p.position.z).toList ++
  (enc p.rotation.x).toList ++ (enc p.rotation.y).toList ++ (enc p.rotation.z).toList

/-- The arguments of one `Serializer::CreateMessage(MessageType::Notify, ...)`
call, which determine the notification frame. -/
structure Notify where
  message_id : Nat
  sub_id : Nat
  device_id : Nat
  status_code : Nat
  payload : List Nat
  deriving DecidableEq, Repr

/-- Modelled from the spec: the transport peer (`ZmqPeer`, not among the
sources) as far as the controller observes it: whether it was started and
the frames it has transmitted, oldest first. -/
structure ZmqPeer where
  started : Bool
  sent : List Notify
  deriving DecidableEq, Repr

/-- The external collaborators whose code is not among the sources, as
parameters: whether `Serializer::CreateMessage` yields a frame, whether
`ZmqPeer::Send` transmits it, the wire encoding of a `float`, and the decoder
used by the message router. -/
structure External where
  CreateMessage : Notify → Bool
  Send : ZmqPeer → Notify → Bool
  encodeFloat : ℚ → FloatBytes
  decode : List Nat → Option (MessageKey × List Nat)

/-- The data members of `class ArmController` (`ArmController.hpp`).
The three shared pointers are modelled by what they point to or by whether
they are set; `state_mutex_` is left out. -/
structure ArmController where
  current_state_ : EventState
  active_connection_ : String
  peer_ : Option ZmqPeer
  peer_event_handler_ : Bool
  message_router_ : Bool
  initialized_ : Bool
  running_ : Bool
  last_pose_ : PoseItem
  calibration_pose_index_ : Int
  charging_pose_index_ : Int
  deriving DecidableEq

/-- The controller after the constructor `ArmController::ArmController()`: the
member initialisers of the header and `last_pose_.Reset()`. -/
def ArmController.ctor : ArmController :=
  { current_state_ := EventState.DEVICE_IDLE
    active_connection_ := ""
    peer_ := none
    peer_event_handler_ := false
    message_router_ := false
    initialized_ := false
    running_ := false
    last_pose_ := PoseItem.Reset
    calibration_pose_index_ := 0
    charging_pose_index_ := 0 }

/-- The frames the controller's peer has transmitted (none without a peer). -/
def ArmController.transmitted (c : ArmController) : List Notify :=
  match c.peer_ with
  | none => []
  | some p => p.sent

/-- The value of a C++ `int` after an arithmetic result `n`: 32-bit two's
complement. (Signed overflow is undefined in C++; the wrap is what the
usual targets compute.) -/
def wrapInt32 (n : Int) : Int := (n + 2147483648) % 4294967296 - 2147483648

/-! ## `ArmController.cpp` -/

/-- Source function `ArmController::OnPeerConnection`. -/
def ArmController.OnPeerConnection (remote_id : String) (connected : Bool)
    (c : ArmController) : ArmController :=
  if connected then
    { c with active_connection_ := remote_id, current_state_ := EventState.DEVICE_IDLE }
  else if c.active_connection_ = remote_id then
    { c with active_connection_ := "", current_state_ := EventState.DEVICE_DISCONNECTED }
  else c

/-- Source function `ArmController::OnPeerError`: a log line only. -/
def ArmController.OnPeerError (_remote_id : String) (_error_code : Int)
    (_error_message : String) (c : ArmController) : ArmController := c

/-- Source function `ArmController::GetCurrentState`. -/
def ArmController.GetCurrentState (c : ArmController) : EventState := c.current_state_

/-- Source function `ArmController::SendResponse`: the Boolean it returns and the controller
afterwards. A frame is appended to the peer's transmitted frames exactly when
`peer_->Send` reports success. -/
def ArmController.SendResponse (E : External) (message_id sub_id status_code : Nat)
    (payload : List Nat) (c : ArmController) : Bool × ArmController :=
  match c.peer_ with
  | none => (false, c)
  | some p =>
    if c.active_connection_ = "" then (false, c)
    else
      let notify : Notify := ⟨message_id, sub_id, 1, status_code, payload⟩
      if E.CreateMessage notify = false then (false, c)
      else
        let sent := E.Send p notify
        if sent then (true, { c with peer_ := some { p with sent := p.sent ++ [notify] } })
        else (false, c)

/-- Source function `ArmController::GeneratePoseForCommand`: the pose it returns and the
controller afterwards (the indices are data members). -/
def ArmController.GeneratePoseForCommand (K : Constants) (key : MessageKey)
    (c : ArmController) : PoseItem × ArmController :=
  let pose : PoseItem := PoseItem.Reset
  let base_z : ℚ := 0.25
  let is_calibration : Bool := key.message_id == K.MessageIds.CALIBRATION
  let is_charging : Bool := key.message_id == K.MessageIds.START_CHARGING
  let r : PoseItem × ArmController :=
    if is_calibration then
      if key.sub_message_id = K.SubMessageIds.ARM_MOVING_TO_INIT_POSITION then
        ({ pose with position := ⟨0.30, -0.10, base_z⟩, rotation := ⟨0.0, 0.0, 0.0⟩ },
         { c with calibration_pose_index_ := 0 })
      else if key.sub_message_id = K.SubMessageIds.ARM_MOVING_TO_CALIB_POSITION then
        let offset : ℚ := 0.01 * (c.calibration_pose_index_ : ℚ)
        ({ pose with
            position := ⟨0.30 + offset, -0.10 + offset * 0.5, base_z + offset * 0.2⟩,
            rotation := ⟨0.05 * (c.calibration_pose_index_ : ℚ),
                         -0.03 * (c.calibration_pose_index_ : ℚ),
                         0.02 * (c.calibration_pose_index_ : ℚ)⟩ },
         { c with calibration_pose_index_ := wrapInt32 (c.calibration_pose_index_ + 1) })
      else (pose, c)
    else if is_charging then
      if key.sub_message_id = K.SubMessageIds.ARM_MOVING_TO_INIT_POSITION then
        ({ pose with position := ⟨0.40, 0.05, base_z + 0.05⟩, rotation := ⟨0.0, 0.0, 0.0⟩ },
         { c with charging_pose_index_ := 0 })
      else if key.sub_message_id = K.SubMessageIds.ARM_MOVING_TO_TARGET_POSITION then
        let offset : ℚ := 0.015 * (c.charging_pose_index_ : ℚ)
        ({ pose with
            position := ⟨0.42 + offset, 0.06 - offset * 0.4, base_z + 0.04 - offset * 0.1⟩,
            rotation := ⟨0.04 * (c.charging_pose_index_ : ℚ),
                         0.02 * (c.charging_pose_index_ : ℚ),
                         -0.01 * (c.charging_pose_index_ : ℚ)⟩ },
         { c with charging_pose_index_ := wrapInt32 (c.charging_pose_index_ + 1) })
      else (pose, c)
    else (pose, c)
  ({ r.1 with confidence := 1 }, r.2)

/-- The first half of `ArmController::SimulateAction` (up to the sleep): the
payload it builds and the controller after the pose bookkeeping. -/
def ArmController.SimulateAction.payload (E : External) (K : Constants) (key : MessageKey)
    (c : ArmController) : List Nat × ArmController :=
  let is_moving_command : Bool :=
    key.sub_message_id == K.SubMessageIds.ARM_MOVING_TO_INIT_POSITION ||
    key.sub_message_id == K.SubMessageIds.ARM_MOVING_TO_CALIB_POSITION ||
    key.sub_message_id == K.SubMessageIds.ARM_MOVING_TO_TARGET_POSITION ||
    key.sub_message_id == K.SubMessageIds.ARM_MOVING_TO_RESET_POSITION
  if is_moving_command then
    let r := ArmController.GeneratePoseForCommand K key c
    let pose := r.1
    (pose.SerializeToPayload E.encodeFloat, { r.2 with last_pose_ := pose })
  else
    (c.last_pose_.SerializeToPayload E.encodeFloat, c)

/-- Source function `ArmController::SimulateAction`: build the payload, then send the
COMPLETED response with it. -/
def ArmController.SimulateAction (E : External) (K : Constants) (key : MessageKey)
    (c : ArmController) : ArmController :=
  let r := ArmController.SimulateAction.payload E K key c
  (ArmController.SendResponse E key.message_id key.sub_message_id K.StatusCode.COMPLETED
    r.1 r.2).2

/-- Source function `ArmController::HandleManualModeMonitorRequest`. -/
def ArmController.HandleManualModeMonitorRequest (E : External) (K : Constants)
    (c : ArmController) : ArmController :=
  let key : MessageKey :=
    { message_id := K.MessageIds.MANUAL_REMOTE_CONTROL
      sub_message_id := K.SubMessageIds.IDLE
      status := K.StatusCode.PROCESSING }
  ArmController.SimulateAction E K key c

/-- Source function `void ArmController::TriggerWallEvent(uint16_t message_id)`: the Boolean of
the inner `SendResponse` is dropped, the function hands back nothing (the
unit value) and the controller afterwards. -/
def ArmController.TriggerWallEvent (E : External) (K : Constants) (message_id : Nat)
    (c : ArmController) : Unit × ArmController :=
  ((), (ArmController.SendResponse E message_id K.SubMessageIds.IDLE
    K.StatusCode.PROCESSING [] c).2)

/-! ### Initialize, Start, Stop -/

/-- The external calls of `ArmController::Initialize` that can throw, in
source order: `make_shared<ZmqPeer>(config)`, `make_shared<PeerEventHandlerImpl>`,
`peer_->RegisterEventHandler`, `make_shared<MessageRouter>()` and
`message_router_->InitializeRoutes(ArmControllerRouterTable::Get(this))`. -/
inductive InitStep where
  | MakePeer
  | MakeHandler
  | RegisterEventHandler
  | MakeRouter
  | InitializeRoutes
  deriving DecidableEq, Repr

/-- The outcomes of the external calls made by `Initialize` and `Start`, as
parameters: whether a step of `Initialize` throws a `std::exception` for the
given endpoint, and what `ZmqPeer::Start` returns. -/
structure Lifecycle where
  throws : String → InitStep → Bool
  peerStart : ZmqPeer → Bool

/-- Source function `ArmController::Initialize`: the Boolean it returns and
the controller afterwards. Each assignment takes effect when the call on its
right-hand side has returned; the `catch` block returns false and undoes
nothing. A fresh peer has not been started and has transmitted nothing. -/
def ArmController.Initialize (L : Lifecycle) (endpoint : String) (c : ArmController) :
    Bool × ArmController :=
  if c.initialized_ then (true, c)
  else if L.throws endpoint InitStep.MakePeer then (false, c)
  else
    let c1 : ArmController := { c with peer_ := some { started := false, sent := [] } }
    if L.throws endpoint InitStep.MakeHandler then (false, c1)
    else
      let c2 : ArmController := { c1 with peer_event_handler_ := true }
      if L.throws endpoint InitStep.RegisterEventHandler then (false, c2)
      else if L.throws endpoint InitStep.MakeRouter then (false, c2)
      else
        let c3 : ArmController := { c2 with message_router_ := true }
        if L.throws endpoint InitStep.InitializeRoutes then (false, c3)
        else (true, { c3 with current_state_ := EventState.DEVICE_IDLE, initialized_ := true })

/-- Source function `ArmController::Start`: the Boolean it returns and the
controller afterwards; `none` stands for the dereference of a null `peer_`.
A successful `peer_->Start()` marks the peer as started. -/
def ArmController.Start (L : Lifecycle) (c : ArmController) : Option (Bool × ArmController) :=
  if c.initialized_ = false ∨ c.running_ = true then some (c.running_, c)
  else
    match c.peer_ with
    | none => none
    | some p =>
      if L.peerStart p = false then some (false, c)
      else some (true, { c with running_ := true, peer_ := some { p with started := true } })

/-- Source function `ArmController::Stop`; `peer_->Stop()` marks the peer as
not started. -/
def ArmController.Stop (c : ArmController) : ArmController :=
  if c.running_ = false then c
  else
    { c with running_ := false
             peer_ := c.peer_.map (fun p => { p with started := false }) }

/-! ## `ArmControllerRouterTable.cpp` and the message router -/

/-- The type `MessageRouter::RouteEntry`: a handler of a key and a raw payload.
The closure captures the controller pointer, so the handler acts on the
controller value. -/
abbrev MessageRouter.RouteEntry : Type :=
  MessageKey → List Nat → ArmController → ArmController

/-- The type `MessageRouter::RouteTable`: the entries in the order of the
initialiser list. -/
abbrev MessageRouter.RouteTable : Type :=
  List (MessageKey × MessageRouter.RouteEntry)

/-- The expansion of `ARM_ROUTE_ENTRY(msg_id, sub_id)`: the key with status
PROCESSING and the closure that sends PROCESSING and runs `SimulateAction`. -/
def ARM_ROUTE_ENTRY (E : External) (K : Constants) (msg_id sub_id : Nat) :
    MessageKey × MessageRouter.RouteEntry :=
  ({ message_id := msg_id, sub_message_id := sub_id, status := K.StatusCode.PROCESSING },
   fun key _ controller =>
     ArmController.SimulateAction E K key
       (ArmController.SendResponse E key.message_id key.sub_message_id
         K.StatusCode.PROCESSING [] controller).2)

/-- The expansion of `ARM_MANUAL_ROUTE_ENTRY(msg_id, sub_id)`: the key with
status PROCESSING and the closure that sends PROCESSING and runs
`HandleManualModeMonitorRequest`. -/
def ARM_MANUAL_ROUTE_ENTRY (E : External) (K : Constants) (msg_id sub_id : Nat) :
    MessageKey × MessageRouter.RouteEntry :=
  ({ message_id := msg_id, sub_message_id := sub_id, status := K.StatusCode.PROCESSING },
   fun key _ controller =>
     ArmController.HandleManualModeMonitorRequest E K
       (ArmController.SendResponse E key.message_id key.sub_message_id
         K.StatusCode.PROCESSING [] controller).2)

/-- Source function `ArmControllerRouterTable::Get`: the nineteen entries, in source order. -/
def ArmControllerRouterTable.Get (E : External) (K : Constants) : MessageRouter.RouteTable :=
  [ ARM_ROUTE_ENTRY E K K.MessageIds.START_CHARGING K.SubMessageIds.DEVICE_SELF_CHECK,
    ARM_ROUTE_ENTRY E K K.MessageIds.START_CHARGING K.SubMessageIds.OPEN_COVER,
    ARM_ROUTE_ENTRY E K K.MessageIds.START_CHARGING K.SubMessageIds.ARM_MOVING_TO_INIT_POSITION,
    ARM_ROUTE_ENTRY E K K.MessageIds.START_CHARGING K.SubMessageIds.ARM_MOVING_TO_TARGET_POSITION,
    ARM_ROUTE_ENTRY E K K.MessageIds.START_CHARGING K.SubMessageIds.PATH_PLANNING,
    ARM_ROUTE_ENTRY E K K.MessageIds.START_CHARGING K.SubMessageIds.CHARGING_INSERTION,
    ARM_ROUTE_ENTRY E K K.MessageIds.START_CHARGING K.SubMessageIds.CONNECTION_VERIFICATION,
    ARM_ROUTE_ENTRY E K K.MessageIds.CALIBRATION K.SubMessageIds.DEVICE_SELF_CHECK,
    ARM_ROUTE_ENTRY E K K.MessageIds.CALIBRATION K.SubMessageIds.IDLE,
    ARM_ROUTE_ENTRY E K K.MessageIds.CALIBRATION K.SubMessageIds.OPEN_COVER,
    ARM_ROUTE_ENTRY E K K.MessageIds.CALIBRATION K.SubMessageIds.ARM_MOVING_TO_INIT_POSITION,
    ARM_ROUTE_ENTRY E K K.MessageIds.CALIBRATION K.SubMessageIds.ARM_MOVING_TO_CALIB_POSITION,
    ARM_ROUTE_ENTRY E K K.MessageIds.RESET K.SubMessageIds.IDLE,
    ARM_ROUTE_ENTRY E K K.MessageIds.RESET K.SubMessageIds.CHARGING_REMOVAL,
    ARM_ROUTE_ENTRY E K K.MessageIds.RESET K.SubMessageIds.ARM_MOVING_TO_RESET_POSITION,
    ARM_ROUTE_ENTRY E K K.MessageIds.RESET K.SubMessageIds.CLOSE_COVER,
    ARM_ROUTE_ENTRY E K K.MessageIds.EMERGENCY_STOP K.SubMessageIds.IDLE,
    ARM_ROUTE_ENTRY E K K.MessageIds.EMERGENCY_STOP_RECOVERY K.SubMessageIds.IDLE,
    ARM_MANUAL_ROUTE_ENTRY E K K.MessageIds.MANUAL_REMOTE_CONTROL K.SubMessageIds.IDLE ]

/-- The keys registered by `ArmControllerRouterTable::Get`, in source order. -/
def ArmControllerRouterTable.keys (E : External) (K : Constants) : List MessageKey :=
  (ArmControllerRouterTable.Get E K).map Prod.fst

/-- The handler of a table entry, invoked on the key it is registered under
with a raw payload. -/
def MessageRouter.invoke (entry : MessageKey × MessageRouter.RouteEntry) (raw : List Nat)
    (c : ArmController) : ArmController :=
  entry.2 entry.1 raw c

/-- Modelled from the spec: the lookup `Find(key) -> handler | not-found` of
`MessageRouter` (not among the sources): the handler of the first entry
registered under the key. -/
def MessageRouter.Find (key : MessageKey) :
    MessageRouter.RouteTable → Option MessageRouter.RouteEntry
  | [] => none
  | (k, handler) :: rest => if k = key then some handler else MessageRouter.Find key rest

/-- Modelled from the spec: the routing step of `MessageRouter` (not among the
sources) for a decoded key: look the key up in the table built by
`InitializeRoutes(ArmControllerRouterTable::Get(this))` and invoke the bound
handler with the raw payload; a key that is not found is dropped. The Boolean
is whether a handler ran. -/
def MessageRouter.Route (E : External) (K : Constants) (key : MessageKey)
    (payload : List Nat) (c : ArmController) : Bool × ArmController :=
  match MessageRouter.Find key (ArmControllerRouterTable.Get E K) with
  | none => (false, c)
  | some handler => (true, handler key payload c)

/-- Modelled from the spec: `MessageRouter::ProcessMessageData` (not among the
sources): decode the bytes into a key and a payload (external decoder), then
route; a decode failure is dropped. -/
def MessageRouter.ProcessMessageData (E : External) (K : Constants) (data : List Nat)
    (c : ArmController) : Bool × ArmController :=
  match E.decode data with
  | none => (false, c)
  | some (key, payload) => MessageRouter.Route E K key payload c

/-- Source function `ArmController::OnPeerMessage`: nothing without a router, otherwise
`ProcessMessageData`, whose Boolean only selects a log line. -/
def ArmController.OnPeerMessage (E : External) (K : Constants) (_remote_id : String)
    (data : List Nat) (c : ArmController) : ArmController :=
  if c.message_router_ = false then c
  else (MessageRouter.ProcessMessageData E K data c).2

/-! ## Events reaching the controller -/

/-- The calls that reach a controller from the transport callbacks
(`PeerEventHandlerImpl`), from a handler or from the command line loop. -/
inductive Event where
  | OnMessage (remote_id : String) (data : List Nat)
  | OnConnection (remote_id : String) (connected : Bool)
  | OnError (remote_id : String) (error_code : Int) (error_message : String)
  | SendResponse (message_id sub_id status_code : Nat) (payload : List Nat)
  | TriggerWallEvent (message_id : Nat)
  deriving DecidableEq, Repr

/-- Whether the event is a connect notification, `OnConnection(_, true)`. -/
def Event.isConnect : Event → Bool
  | Event.OnConnection _ connected => connected
  | _ => false

/-- The controller after one event. -/
def ArmController.handle (E : External) (K : Constants) (c : ArmController) :
    Event → ArmController
  | Event.OnMessage remote_id data => ArmController.OnPeerMessage E K remote_id data c
  | Event.OnConnection remote_id connected => ArmController.OnPeerConnection remote_id connected c
  | Event.OnError remote_id code msg => ArmController.OnPeerError remote_id code msg c
  | Event.SendResponse message_id sub_id status_code payload =>
      (ArmController.SendResponse E message_id sub_id status_code payload c).2
  | Event.TriggerWallEvent message_id => (ArmController.TriggerWallEvent E K message_id c).2

/-- The controller after a sequence of events, oldest first. -/
def ArmController.run (E : External) (K : Constants) (c : ArmController)
    (events : List Event) : ArmController :=
  events.foldl (ArmController.handle E K) c

/-! ## Sample values -/

/-- A sample assignment of pairwise distinct values to the named constants. -/
def sampleConstants : Constants :=
  { MessageIds :=
      { START_CHARGING := 1, CALIBRATION := 2, RESET := 3, EMERGENCY_STOP := 4,
        EMERGENCY_STOP_RECOVERY := 5, MANUAL_REMOTE_CONTROL := 6 }
    SubMessageIds :=
      { IDLE := 0, DEVICE_SELF_CHECK := 1, OPEN_COVER := 2, ARM_MOVING_TO_INIT_POSITION := 3,
        ARM_MOVING_TO_TARGET_POSITION := 4, ARM_MOVING_TO_CALIB_POSITION := 5,
        ARM_MOVING_TO_RESET_POSITION := 6, PATH_PLANNING := 7, CHARGING_INSERTION := 8,
        CONNECTION_VERIFICATION := 9, CHARGING_REMOVAL := 10, CLOSE_COVER := 11 }
    StatusCode := { PROCESSING := 1, COMPLETED := 2 } }

/-- A sample environment in which the serializer and the transport always
succeed, the float encoding is constant, and the decoder reads the key from
the first three bytes. -/
def sampleExternal : External :=
  { CreateMessage := fun _ => true
    Send := fun _ _ => true
    encodeFloat := fun _ => ⟨0, 0, 0, 0⟩
    decode := fun data =>
      match data with
      | m :: s :: st :: rest => some (⟨m, s, st⟩, rest)
      | _ => none }

/-- A controller as `Initialize` leaves it (peer, handler and router set,
state IDLE), before any connection. -/
def sampleInitialized : ArmController :=
  { ArmController.ctor with
    peer_ := some { started := false, sent := [] }
    peer_event_handler_ := true
    message_router_ := true
    initialized_ := true }

/-- A controller as `Initialize` leaves it, after the peer "P1" connected. -/
def sampleConnected : ArmController :=
  ArmController.OnPeerConnection "P1" true sampleInitialized

/-! ## The calibration scenario -/

/-- The routing step for (CALIBRATION, ARM_MOVING_TO_CALIB_POSITION, PROCESSING):
the handler of its table entry, run on its key. -/
def routeCalibrationCalib (E : External) (K : Constants) (raw : List Nat)
    (c : ArmController) : ArmController :=
  MessageRouter.invoke
    (ARM_ROUTE_ENTRY E K K.MessageIds.CALIBRATION K.SubMessageIds.ARM_MOVING_TO_CALIB_POSITION)
    raw c

/-- Closed form of the pose that the calibration calib-position step computes
from the index i (shown equal to the code in
`GeneratePoseForCommand_calibration_calib`). -/
def calibrationPoseAt (i : Int) : PoseItem :=
  { position := ⟨0.30 + 0.01 * (i : ℚ), -0.10 + 0.005 * (i : ℚ), 0.25 + 0.002 * (i : ℚ)⟩
    rotation := ⟨0.05 * (i : ℚ), -0.03 * (i : ℚ), 0.02 * (i : ℚ)⟩
    confidence := 1 }

/-! ## Well-formed constants, consistent controllers, calls -/

/-- The named message ids are pairwise different values, and so are the named
sub ids. -/
def Constants.Distinct (K : Constants) : Prop :=
  [K.MessageIds.START_CHARGING, K.MessageIds.CALIBRATION, K.MessageIds.RESET,
   K.MessageIds.EMERGENCY_STOP, K.MessageIds.EMERGENCY_STOP_RECOVERY,
   K.MessageIds.MANUAL_REMOTE_CONTROL].Nodup ∧
  [K.SubMessageIds.IDLE, K.SubMessageIds.DEVICE_SELF_CHECK, K.SubMessageIds.OPEN_COVER,
   K.SubMessageIds.ARM_MOVING_TO_INIT_POSITION, K.SubMessageIds.ARM_MOVING_TO_TARGET_POSITION,
   K.SubMessageIds.ARM_MOVING_TO_CALIB_POSITION, K.SubMessageIds.ARM_MOVING_TO_RESET_POSITION,
   K.SubMessageIds.PATH_PLANNING, K.SubMessageIds.CHARGING_INSERTION,
   K.SubMessageIds.CONNECTION_VERIFICATION, K.SubMessageIds.CHARGING_REMOVAL,
   K.SubMessageIds.CLOSE_COVER].Nodup

instance (K : Constants) : Decidable K.Distinct := by
  unfold Constants.Distinct
  infer_instance

/-- The sub id is none of the four moving-to-position sub ids that
`SimulateAction` tests for. -/
def MessageKey.NonMotion (K : Constants) (key : MessageKey) : Prop :=
  key.sub_message_id ≠ K.SubMessageIds.ARM_MOVING_TO_INIT_POSITION ∧
  key.sub_message_id ≠ K.SubMessageIds.ARM_MOVING_TO_CALIB_POSITION ∧
  key.sub_message_id ≠ K.SubMessageIds.ARM_MOVING_TO_TARGET_POSITION ∧
  key.sub_message_id ≠ K.SubMessageIds.ARM_MOVING_TO_RESET_POSITION

instance (K : Constants) (key : MessageKey) : Decidable (key.NonMotion K) := by
  unfold MessageKey.NonMotion
  infer_instance

/-- The sub id is one of the four moving-to-position sub ids that
`SimulateAction` tests for. -/
def MessageKey.Motion (K : Constants) (key : MessageKey) : Prop :=
  key.sub_message_id = K.SubMessageIds.ARM_MOVING_TO_INIT_POSITION ∨
  key.sub_message_id = K.SubMessageIds.ARM_MOVING_TO_CALIB_POSITION ∨
  key.sub_message_id = K.SubMessageIds.ARM_MOVING_TO_TARGET_POSITION ∨
  key.sub_message_id = K.SubMessageIds.ARM_MOVING_TO_RESET_POSITION

instance (K : Constants) (key : MessageKey) : Decidable (key.Motion K) := by
  unfold MessageKey.Motion
  infer_instance

/-- Two controllers agree on everything but the pose bookkeeping and the
frames transmitted: device state, active connection, the flags, and whether a
peer is set. -/
def ArmController.SameControl (a b : ArmController) : Prop :=
  a.current_state_ = b.current_state_ ∧
  a.active_connection_ = b.active_connection_ ∧
  a.peer_.isSome = b.peer_.isSome ∧
  a.peer_event_handler_ = b.peer_event_handler_ ∧
  a.message_router_ = b.message_router_ ∧
  a.initialized_ = b.initialized_ ∧
  a.running_ = b.running_

/-- The flags of a controller fit together: a running controller is
initialized, and an initialized controller has its peer, event handler and
router set. -/
def ArmController.Consistent (c : ArmController) : Prop :=
  (c.running_ = true → c.initialized_ = true) ∧
  (c.initialized_ = true →
    c.peer_.isSome = true ∧ c.peer_event_handler_ = true ∧ c.message_router_ = true)

instance (c : ArmController) : Decidable c.Consistent := by
  unfold ArmController.Consistent
  infer_instance

/-- The device state and the active connection fit together: the state is
IDLE, or it is DISCONNECTED with no active connection. -/
def ArmController.ConnectionInvariant (c : ArmController) : Prop :=
  c.current_state_ = EventState.DEVICE_IDLE ∨
  (c.current_state_ = EventState.DEVICE_DISCONNECTED ∧ c.active_connection_ = "")

/-- The calls made on a controller by `main`, by the transport callbacks and
by handlers. -/
inductive Call where
  | Initialize (endpoint : String)
  | Start
  | Stop
  | event (e : Event)
  deriving DecidableEq, Repr

/-- The controller after one call; `none` when `Start` dereferences a null
peer. -/
def ArmController.call (L : Lifecycle) (E : External) (K : Constants) (c : ArmController) :
    Call → Option ArmController
  | Call.Initialize endpoint => some (ArmController.Initialize L endpoint c).2
  | Call.Start => (ArmController.Start L c).map Prod.snd
  | Call.Stop => some (ArmController.Stop c)
  | Call.event e => some (ArmController.handle E K c e)

/-- The controller after a sequence of calls, oldest first. -/
def ArmController.calls (L : Lifecycle) (E : External) (K : Constants) :
    ArmController → List Call → Option ArmController
  | c, [] => some c
  | c, x :: rest =>
    match ArmController.call L E K c x with
    | none => none
    | some c1 => ArmController.calls L E K c1 rest

/-- A sample of lifecycle outcomes: nothing throws and the transport starts. -/
def sampleLifecycle : Lifecycle :=
  { throws := fun _ _ => false
    peerStart := fun _ => true }

/-- A sample of lifecycle outcomes in which handler registration throws. -/
def sampleRegisterThrows : Lifecycle :=
  { throws := fun _ step => decide (step = InitStep.RegisterEventHandler)
    peerStart := fun _ => true }

/-! ## The names of the registered keys -/

/-- The six `MessageIds::` names that the route table uses. -/
inductive MessageName where
  | START_CHARGING
  | CALIBRATION
  | RESET
  | EMERGENCY_STOP
  | EMERGENCY_STOP_RECOVERY
  | MANUAL_REMOTE_CONTROL
  deriving DecidableEq, Repr

/-- The twelve `SubMessageIds::` names that the controller uses. -/
inductive SubName where
  | IDLE
  | DEVICE_SELF_CHECK
  | OPEN_COVER
  | ARM_MOVING_TO_INIT_POSITION
  | ARM_MOVING_TO_TARGET_POSITION
  | ARM_MOVING_TO_CALIB_POSITION
  | ARM_MOVING_TO_RESET_POSITION
  | PATH_PLANNING
  | CHARGING_INSERTION
  | CONNECTION_VERIFICATION
  | CHARGING_REMOVAL
  | CLOSE_COVER
  deriving DecidableEq, Repr

/-- The value of a named message id. -/
def Constants.messageId (K : Constants) : MessageName → Nat
  | MessageName.START_CHARGING => K.MessageIds.START_CHARGING
  | MessageName.CALIBRATION => K.MessageIds.CALIBRATION
  | MessageName.RESET => K.MessageIds.RESET
  | MessageName.EMERGENCY_STOP => K.MessageIds.EMERGENCY_STOP
  | MessageName.EMERGENCY_STOP_RECOVERY => K.MessageIds.EMERGENCY_STOP_RECOVERY
  | MessageName.MANUAL_REMOTE_CONTROL => K.MessageIds.MANUAL_REMOTE_CONTROL

/-- The value of a named sub id. -/
def Constants.subId (K : Constants) : SubName → Nat
  | SubName.IDLE => K.SubMessageIds.IDLE
  | SubName.DEVICE_SELF_CHECK => K.SubMessageIds.DEVICE_SELF_CHECK
  | SubName.OPEN_COVER => K.SubMessageIds.OPEN_COVER
  | SubName.ARM_MOVING_TO_INIT_POSITION => K.SubMessageIds.ARM_MOVING_TO_INIT_POSITION
  | SubName.ARM_MOVING_TO_TARGET_POSITION => K.SubMessageIds.ARM_MOVING_TO_TARGET_POSITION
  | SubName.ARM_MOVING_TO_CALIB_POSITION => K.SubMessageIds.ARM_MOVING_TO_CALIB_POSITION
  | SubName.ARM_MOVING_TO_RESET_POSITION => K.SubMessageIds.ARM_MOVING_TO_RESET_POSITION
  | SubName.PATH_PLANNING => K.SubMessageIds.PATH_PLANNING
  | SubName.CHARGING_INSERTION => K.SubMessageIds.CHARGING_INSERTION
  | SubName.CONNECTION_VERIFICATION => K.SubMessageIds.CONNECTION_VERIFICATION
  | SubName.CHARGING_REMOVAL => K.SubMessageIds.CHARGING_REMOVAL
  | SubName.CLOSE_COVER => K.SubMessageIds.CLOSE_COVER

/-- The key that a route macro builds from a pair of names. -/
def Constants.routeKey (K : Constants) (n : MessageName × SubName) : MessageKey :=
  { message_id := K.messageId n.1, sub_message_id := K.subId n.2,
    status := K.StatusCode.PROCESSING }

/-- The names under which `ArmControllerRouterTable::Get` registers its
nineteen entries, in source order. -/
def ArmControllerRouterTable.names : List (MessageName × SubName) :=
  [ (MessageName.START_CHARGING, SubName.DEVICE_SELF_CHECK),
    (MessageName.START_CHARGING, SubName.OPEN_COVER),
    (MessageName.START_CHARGING, SubName.ARM_MOVING_TO_INIT_POSITION),
    (MessageName.START_CHARGING, SubName.ARM_MOVING_TO_TARGET_POSITION),
    (MessageName.START_CHARGING, SubName.PATH_PLANNING),
    (MessageName.START_CHARGING, SubName.CHARGING_INSERTION),
    (MessageName.START_CHARGING, SubName.CONNECTION_VERIFICATION),
    (MessageName.CALIBRATION, SubName.DEVICE_SELF_CHECK),
    (MessageName.CALIBRATION, SubName.IDLE),
    (MessageName.CALIBRATION, SubName.OPEN_COVER),
    (MessageName.CALIBRATION, SubName.ARM_MOVING_TO_INIT_POSITION),
    (MessageName.CALIBRATION, SubName.ARM_MOVING_TO_CALIB_POSITION),
    (MessageName.RESET, SubName.IDLE),
    (MessageName.RESET, SubName.CHARGING_REMOVAL),
    (MessageName.RESET, SubName.ARM_MOVING_TO_RESET_POSITION),
    (MessageName.RESET, SubName.CLOSE_COVER),
    (MessageName.EMERGENCY_STOP, SubName.IDLE),
    (MessageName.EMERGENCY_STOP_RECOVERY, SubName.IDLE),
    (MessageName.MANUAL_REMOTE_CONTROL, SubName.IDLE) ]

/-! ## Basic facts about `SendResponse` -/

/-- Without an active connection `SendResponse` returns false and leaves the
controller, its peer included, as it was. -/
theorem SendResponse_no_connection (E : External) (message_id sub_id status_code : Nat)
    (payload : List Nat) (c : ArmController) (h : c.active_connection_ = "") :
    ArmController.SendResponse E message_id sub_id status_code payload c = (false, c) := by
  unfold ArmController.SendResponse
  cases hp : c.peer_ with
  | none => rfl
  | some p => simp [h]

/-- With a peer, an active connection, a serializer that yields the frame and
a transport that accepts it, `SendResponse` returns true and the frame is
appended to the transmitted frames; nothing else changes. -/
theorem SendResponse_transmits (E : External) (message_id sub_id status_code : Nat)
    (payload : List Nat) (c : ArmController) (p : ZmqPeer) (hp : c.peer_ = some p)
    (hc : c.active_connection_ ≠ "")
    (hcreate : E.CreateMessage ⟨message_id, sub_id, 1, status_code, payload⟩ = true)
    (hsend : E.Send p ⟨message_id, sub_id, 1, status_code, payload⟩ = true) :
    ArmController.SendResponse E message_id sub_id status_code payload c =
      (true, { c with peer_ := some { p with
                sent := p.sent ++ [⟨message_id, sub_id, 1, status_code, payload⟩] } }) := by
  unfold ArmController.SendResponse
  simp [hp, hc, hcreate, hsend]

/-- A call of `SendResponse` changes at most the peer. -/
theorem SendResponse_only_peer (E : External) (message_id sub_id status_code : Nat)
    (payload : List Nat) (c : ArmController) :
    ∃ peer, (ArmController.SendResponse E message_id sub_id status_code payload c).2 =
      { c with peer_ := peer } := by
  rcases c with ⟨st, ac, pe, eh, mr, ini, rn, lp, ci, chi⟩
  unfold ArmController.SendResponse
  cases pe with
  | none => exact ⟨none, rfl⟩
  | some p =>
    dsimp only
    split_ifs
    all_goals exact ⟨_, rfl⟩

/-- The serialized pose payload has exactly 24 bytes. -/
theorem SerializeToPayload_length (enc : ℚ → FloatBytes) (p : PoseItem) :
    (p.SerializeToPayload enc).length = 24 := by
  simp [PoseItem.SerializeToPayload, FloatBytes.toList]

/-! ## Basic facts about pose generation and `SimulateAction` -/

/-- A call of `GeneratePoseForCommand` changes at most the two pose indices. -/
theorem GeneratePoseForCommand_only_indices (K : Constants) (key : MessageKey)
    (c : ArmController) :
    ∃ i j, (ArmController.GeneratePoseForCommand K key c).2 =
      { c with calibration_pose_index_ := i, charging_pose_index_ := j } := by
  rcases c with ⟨st, ac, pe, eh, mr, ini, rn, lp, ci, chi⟩
  unfold ArmController.GeneratePoseForCommand
  dsimp only
  split_ifs
  all_goals exact ⟨_, _, rfl⟩

/-- The pose and the indices computed by `GeneratePoseForCommand` do not
depend on the peer. -/
theorem GeneratePoseForCommand_peer (K : Constants) (key : MessageKey)
    (c : ArmController) (peer : Option ZmqPeer) :
    ArmController.GeneratePoseForCommand K key { c with peer_ := peer } =
      ((ArmController.GeneratePoseForCommand K key c).1,
       { (ArmController.GeneratePoseForCommand K key c).2 with peer_ := peer }) := by
  rcases c with ⟨st, ac, pe, eh, mr, ini, rn, lp, ci, chi⟩
  unfold ArmController.GeneratePoseForCommand
  dsimp only
  split_ifs
  all_goals rfl

/-- The payload built by `SimulateAction` is the serialization of the last
pose as the bookkeeping leaves it. -/
theorem SimulateAction_payload_eq (E : External) (K : Constants) (key : MessageKey)
    (c : ArmController) :
    (ArmController.SimulateAction.payload E K key c).1 =
      (ArmController.SimulateAction.payload E K key c).2.last_pose_.SerializeToPayload
        E.encodeFloat := by
  unfold ArmController.SimulateAction.payload
  dsimp only
  split_ifs <;> rfl

/-- The payload part of `SimulateAction` changes at most the last pose and
the two pose indices. -/
theorem SimulateAction_payload_only_pose (E : External) (K : Constants) (key : MessageKey)
    (c : ArmController) :
    ∃ pose i j, (ArmController.SimulateAction.payload E K key c).2 =
      { c with last_pose_ := pose, calibration_pose_index_ := i,
               charging_pose_index_ := j } := by
  unfold ArmController.SimulateAction.payload
  dsimp only
  split_ifs
  · obtain ⟨i, j, h⟩ := GeneratePoseForCommand_only_indices K key c
    exact ⟨_, i, j, by rw [h]⟩
  · exact ⟨c.last_pose_, c.calibration_pose_index_, c.charging_pose_index_, rfl⟩

/-- The payload part of `SimulateAction` does not depend on the peer. -/
theorem SimulateAction_payload_peer (E : External) (K : Constants) (key : MessageKey)
    (c : ArmController) (peer : Option ZmqPeer) :
    ArmController.SimulateAction.payload E K key { c with peer_ := peer } =
      ((ArmController.SimulateAction.payload E K key c).1,
       { (ArmController.SimulateAction.payload E K key c).2 with peer_ := peer }) := by
  unfold ArmController.SimulateAction.payload
  dsimp only
  split_ifs
  · rw [GeneratePoseForCommand_peer]
  · rfl

/-- The generic two-phase handler body with a working connection: the
controller afterwards is the one left by the pose bookkeeping, with the
PROCESSING frame and then the COMPLETED frame appended to the transmitted
frames. -/
theorem two_phase_connected (E : External) (K : Constants) (key : MessageKey)
    (c : ArmController) (p : ZmqPeer) (hp : c.peer_ = some p)
    (hc : c.active_connection_ ≠ "")
    (hcreate : ∀ n, E.CreateMessage n = true) (hsend : ∀ q n, E.Send q n = true) :
    ArmController.SimulateAction E K key
        (ArmController.SendResponse E key.message_id key.sub_message_id
          K.StatusCode.PROCESSING [] c).2 =
      { (ArmController.SimulateAction.payload E K key c).2 with
        peer_ := some { p with sent := p.sent ++
          [⟨key.message_id, key.sub_message_id, 1, K.StatusCode.PROCESSING, []⟩,
           ⟨key.message_id, key.sub_message_id, 1, K.StatusCode.COMPLETED,
            (ArmController.SimulateAction.payload E K key c).1⟩] } } := by
  rw [SendResponse_transmits E _ _ _ _ c p hp hc (hcreate _) (hsend _ _)]
  unfold ArmController.SimulateAction
  dsimp only
  rw [SimulateAction_payload_peer]
  obtain ⟨pose, i, j, h⟩ := SimulateAction_payload_only_pose E K key c
  rw [SendResponse_transmits E _ _ _ _ _ _ rfl (by rw [h]; exact hc) (hcreate _) (hsend _ _)]
  simp

/-- The generic two-phase handler body without an active connection: nothing
is transmitted, the controller afterwards is the one left by the pose
bookkeeping. -/
theorem two_phase_no_connection (E : External) (K : Constants) (key : MessageKey)
    (c : ArmController) (hc : c.active_connection_ = "") :
    ArmController.SimulateAction E K key
        (ArmController.SendResponse E key.message_id key.sub_message_id
          K.StatusCode.PROCESSING [] c).2 =
      (ArmController.SimulateAction.payload E K key c).2 := by
  rw [SendResponse_no_connection E _ _ _ _ c hc]
  unfold ArmController.SimulateAction
  dsimp only
  obtain ⟨pose, i, j, h⟩ := SimulateAction_payload_only_pose E K key c
  rw [SendResponse_no_connection E _ _ _ _ _ (by rw [h]; exact hc)]

/-! ## C1: the two-phase protocol -/

/-- C1, as stated, fails: on an initialized controller without an active
connection the entry for (CALIBRATION, ARM_MOVING_TO_INIT_POSITION, PROCESSING)
is in the table, yet running its handler on its key transmits no notification
at all. -/
theorem C1_no_connection_counterexample :
    ARM_ROUTE_ENTRY sampleExternal sampleConstants
        sampleConstants.MessageIds.CALIBRATION
        sampleConstants.SubMessageIds.ARM_MOVING_TO_INIT_POSITION
      ∈ ArmControllerRouterTable.Get sampleExternal sampleConstants ∧
    sampleInitialized.active_connection_ = "" ∧
    (MessageRouter.invoke
      (ARM_ROUTE_ENTRY sampleExternal sampleConstants
        sampleConstants.MessageIds.CALIBRATION
        sampleConstants.SubMessageIds.ARM_MOVING_TO_INIT_POSITION)
      [] sampleInitialized).transmitted = [] := by
  refine ⟨?_, rfl, ?_⟩
  · simp [ArmControllerRouterTable.Get]
  · have h := two_phase_no_connection sampleExternal sampleConstants
      (ARM_ROUTE_ENTRY sampleExternal sampleConstants
        sampleConstants.MessageIds.CALIBRATION
        sampleConstants.SubMessageIds.ARM_MOVING_TO_INIT_POSITION).1 sampleInitialized rfl
    obtain ⟨pose, i, j, hf⟩ := SimulateAction_payload_only_pose sampleExternal sampleConstants
      (ARM_ROUTE_ENTRY sampleExternal sampleConstants
        sampleConstants.MessageIds.CALIBRATION
        sampleConstants.SubMessageIds.ARM_MOVING_TO_INIT_POSITION).1 sampleInitialized
    show (ArmController.SimulateAction _ _ _ _).transmitted = []
    rw [h, hf]
    rfl

/-- C1 (amended): for every entry registered by `ArmControllerRouterTable::Get`
(generic and manual alike) and every controller that has a peer and a
non-empty active connection, when the serializer yields its frames and the
transport accepts them, running the bound handler on its key transmits
exactly two notifications, in order: (message_id, sub_id, PROCESSING) with an
empty payload, then (message_id, sub_id, COMPLETED) whose payload is the
24-byte serialization of the last pose. -/
theorem C1_two_phase_with_connection (E : External) (K : Constants) (c : ArmController)
    (p : ZmqPeer) (raw : List Nat) (entry : MessageKey × MessageRouter.RouteEntry)
    (hp : c.peer_ = some p) (hc : c.active_connection_ ≠ "")
    (hcreate : ∀ n, E.CreateMessage n = true) (hsend : ∀ q n, E.Send q n = true)
    (hentry : entry ∈ ArmControllerRouterTable.Get E K) :
    (MessageRouter.invoke entry raw c).transmitted = c.transmitted ++
      [⟨entry.1.message_id, entry.1.sub_message_id, 1, K.StatusCode.PROCESSING, []⟩,
       ⟨entry.1.message_id, entry.1.sub_message_id, 1, K.StatusCode.COMPLETED,
        (MessageRouter.invoke entry raw c).last_pose_.SerializeToPayload E.encodeFloat⟩] ∧
    ((MessageRouter.invoke entry raw c).last_pose_.SerializeToPayload
      E.encodeFloat).length = 24 := by
  refine ⟨?_, SerializeToPayload_length _ _⟩
  have generic : ∀ m s, MessageRouter.invoke (ARM_ROUTE_ENTRY E K m s) raw c =
      { (ArmController.SimulateAction.payload E K (ARM_ROUTE_ENTRY E K m s).1 c).2 with
        peer_ := some { p with sent := p.sent ++
          [⟨m, s, 1, K.StatusCode.PROCESSING, []⟩,
           ⟨m, s, 1, K.StatusCode.COMPLETED,
            (ArmController.SimulateAction.payload E K (ARM_ROUTE_ENTRY E K m s).1 c).1⟩] } } :=
    fun m s => two_phase_connected E K (ARM_ROUTE_ENTRY E K m s).1 c p hp hc hcreate hsend
  have done : ∀ m s, MessageRouter.invoke entry raw c =
      MessageRouter.invoke (ARM_ROUTE_ENTRY E K m s) raw c →
      entry.1 = (ARM_ROUTE_ENTRY E K m s).1 →
      (MessageRouter.invoke entry raw c).transmitted = c.transmitted ++
        [⟨entry.1.message_id, entry.1.sub_message_id, 1, K.StatusCode.PROCESSING, []⟩,
         ⟨entry.1.message_id, entry.1.sub_message_id, 1, K.StatusCode.COMPLETED,
          (MessageRouter.invoke entry raw c).last_pose_.SerializeToPayload E.encodeFloat⟩] := by
    intro m s hrun hkey
    rw [hrun, hkey, generic m s]
    have hpay := SimulateAction_payload_eq E K (ARM_ROUTE_ENTRY E K m s).1 c
    simp only [ArmController.transmitted, hp]
    rw [hpay]
    rfl
  simp only [ArmControllerRouterTable.Get, List.mem_cons, List.mem_singleton,
    List.not_mem_nil, or_false] at hentry
  rcases hentry with h | h | h | h | h | h | h | h | h | h | h | h | h | h | h | h | h | h | h
  all_goals subst h
  all_goals exact done _ _ rfl rfl

/-- C1 (amended), at a concrete input: the calibration init entry on the
sample controller connected to "P1". -/
theorem C1_two_phase_with_connection_witness :
    (MessageRouter.invoke (ARM_ROUTE_ENTRY sampleExternal sampleConstants 2 3) []
        sampleConnected).transmitted =
      sampleConnected.transmitted ++
        [⟨2, 3, 1, 1, []⟩,
         ⟨2, 3, 1, 2,
          (MessageRouter.invoke (ARM_ROUTE_ENTRY sampleExternal sampleConstants 2 3) []
            sampleConnected).last_pose_.SerializeToPayload sampleExternal.encodeFloat⟩] ∧
    ((MessageRouter.invoke (ARM_ROUTE_ENTRY sampleExternal sampleConstants 2 3) []
        sampleConnected).last_pose_.SerializeToPayload sampleExternal.encodeFloat).length = 24 :=
  C1_two_phase_with_connection sampleExternal sampleConstants sampleConnected
    { started := false, sent := [] } [] (ARM_ROUTE_ENTRY sampleExternal sampleConstants 2 3)
    rfl (by decide) (fun _ => rfl) (fun _ _ => rfl)
    (by simp [ArmControllerRouterTable.Get, sampleConstants])

/-! ## C2: unroutable messages -/

/-- The lookup fails exactly for the keys that no entry is registered under. -/
theorem Find_eq_none_iff (key : MessageKey) (table : MessageRouter.RouteTable) :
    MessageRouter.Find key table = none ↔ key ∉ table.map Prod.fst := by
  induction table with
  | nil => simp [MessageRouter.Find]
  | cons entry rest ih =>
    obtain ⟨k, handler⟩ := entry
    by_cases hk : k = key
    · rw [MessageRouter.Find, if_pos hk]
      constructor
      · intro h
        cases h
      · intro h
        exact absurd (by rw [List.map_cons, hk]; exact List.mem_cons_self _ _) h
    · rw [MessageRouter.Find, if_neg hk, ih, List.map_cons, List.mem_cons, not_or]
      constructor
      · intro h
        exact ⟨fun e => hk e.symm, h⟩
      · intro h
        exact h.2

/-- A handler found by the lookup belongs to an entry of the table. -/
theorem Find_some_mem (key : MessageKey) (table : MessageRouter.RouteTable)
    (handler : MessageRouter.RouteEntry) (h : MessageRouter.Find key table = some handler) :
    (key, handler) ∈ table := by
  induction table with
  | nil => simp [MessageRouter.Find] at h
  | cons entry rest ih =>
    obtain ⟨k, g⟩ := entry
    by_cases hk : k = key
    · rw [MessageRouter.Find, if_pos hk] at h
      cases h
      subst hk
      exact List.mem_cons_self _ _
    · rw [MessageRouter.Find, if_neg hk] at h
      exact List.mem_cons_of_mem _ (ih h)

/-- C2: for every message that decodes to a key under which
`ArmControllerRouterTable::Get` registers no entry, and every controller,
`OnPeerMessage` leaves the whole controller unchanged: no notification is
transmitted, and device state, active connection, last pose and both pose
indices stay as they were. -/
theorem C2_unroutable_message_dropped (E : External) (K : Constants) (c : ArmController)
    (remote_id : String) (data : List Nat) (key : MessageKey) (payload : List Nat)
    (hdecode : E.decode data = some (key, payload))
    (hkey : key ∉ ArmControllerRouterTable.keys E K) :
    ArmController.OnPeerMessage E K remote_id data c = c ∧
    (ArmController.OnPeerMessage E K remote_id data c).transmitted = c.transmitted := by
  have hfind : MessageRouter.Find key (ArmControllerRouterTable.Get E K) = none :=
    (Find_eq_none_iff key _).mpr hkey
  have h : ArmController.OnPeerMessage E K remote_id data c = c := by
    unfold ArmController.OnPeerMessage MessageRouter.ProcessMessageData MessageRouter.Route
    by_cases hr : c.message_router_ = false
    · simp [hr]
    · simp [hr, hdecode, hfind]
  exact ⟨h, by rw [h]⟩

/-- C2 at a concrete input: the bytes 9, 9, 9 decode to a key that is not
registered; the connected sample controller is left unchanged. -/
theorem C2_unroutable_message_dropped_witness :
    ArmController.OnPeerMessage sampleExternal sampleConstants "P1" [9, 9, 9] sampleConnected =
      sampleConnected ∧
    (ArmController.OnPeerMessage sampleExternal sampleConstants "P1" [9, 9, 9]
      sampleConnected).transmitted = sampleConnected.transmitted :=
  C2_unroutable_message_dropped sampleExternal sampleConstants sampleConnected "P1" [9, 9, 9]
    ⟨9, 9, 9⟩ [] rfl (by decide)

/-! ## C3: the connection precondition -/

/-- The type of the value a `void` function hands back is not `bool`. -/
theorem unit_ne_bool (h : Unit = Bool) : False := by
  have hsub : ∀ a b : Bool, a = b := by
    rw [← h]
    intro a b
    rfl
  exact Bool.noConfusion (hsub true false)

/-- C3, as stated, fails for `TriggerWallEvent`: the function is declared
`void`, so on the freshly constructed controller (no active connection) the
value it hands back is not the Boolean false. -/
theorem C3_trigger_returns_no_bool_counterexample :
    ArmController.ctor.active_connection_ = "" ∧
    ¬ HEq (ArmController.TriggerWallEvent sampleExternal sampleConstants 7
            ArmController.ctor).1 false := by
  refine ⟨rfl, ?_⟩
  intro h
  exact unit_ne_bool (type_eq_of_heq h)

/-- C3 (amended): for every controller whose active connection is empty and
every argument, `SendResponse` returns false and transmits nothing, and
`TriggerWallEvent`, which returns no value, transmits nothing either; both
leave the whole controller unchanged. -/
theorem C3_no_connection_no_transmission (E : External) (K : Constants) (c : ArmController)
    (message_id sub_id status_code : Nat) (payload : List Nat)
    (hc : c.active_connection_ = "") :
    (ArmController.SendResponse E message_id sub_id status_code payload c).1 = false ∧
    (ArmController.SendResponse E message_id sub_id status_code payload c).2 = c ∧
    (ArmController.SendResponse E message_id sub_id status_code payload c).2.transmitted =
      c.transmitted ∧
    ArmController.TriggerWallEvent E K message_id c = ((), c) ∧
    (ArmController.TriggerWallEvent E K message_id c).2.transmitted = c.transmitted := by
  have h1 := SendResponse_no_connection E message_id sub_id status_code payload c hc
  have h2 : ArmController.TriggerWallEvent E K message_id c = ((), c) := by
    unfold ArmController.TriggerWallEvent
    rw [SendResponse_no_connection E _ _ _ _ c hc]
  rw [h1, h2]
  exact ⟨rfl, rfl, rfl, rfl, rfl⟩

/-- C3 (amended) at a concrete input: the initialized sample controller
before any connection. -/
theorem C3_no_connection_no_transmission_witness :
    (ArmController.SendResponse sampleExternal 2 3 1 [] sampleInitialized).1 = false ∧
    (ArmController.SendResponse sampleExternal 2 3 1 [] sampleInitialized).2 =
      sampleInitialized ∧
    (ArmController.SendResponse sampleExternal 2 3 1 [] sampleInitialized).2.transmitted =
      sampleInitialized.transmitted ∧
    ArmController.TriggerWallEvent sampleExternal sampleConstants 2 sampleInitialized =
      ((), sampleInitialized) ∧
    (ArmController.TriggerWallEvent sampleExternal sampleConstants 2
      sampleInitialized).2.transmitted = sampleInitialized.transmitted :=
  C3_no_connection_no_transmission sampleExternal sampleConstants sampleInitialized 2 3 1 [] rfl

/-! ## C4, C5: connection events -/

/-- C4: for every controller and every peer id different from the active
connection, `OnPeerConnection(peer, false)` leaves the whole controller
unchanged, in particular the device state, the active connection, the last
pose and both pose indices. -/
theorem C4_disconnect_of_other_peer_ignored (c : ArmController) (remote_id : String)
    (hne : remote_id ≠ c.active_connection_) :
    ArmController.OnPeerConnection remote_id false c = c ∧
    (ArmController.OnPeerConnection remote_id false c).current_state_ = c.current_state_ ∧
    (ArmController.OnPeerConnection remote_id false c).active_connection_ =
      c.active_connection_ ∧
    (ArmController.OnPeerConnection remote_id false c).last_pose_ = c.last_pose_ ∧
    (ArmController.OnPeerConnection remote_id false c).calibration_pose_index_ =
      c.calibration_pose_index_ ∧
    (ArmController.OnPeerConnection remote_id false c).charging_pose_index_ =
      c.charging_pose_index_ := by
  have h : ArmController.OnPeerConnection remote_id false c = c := by
    unfold ArmController.OnPeerConnection
    have hne2 : ¬ c.active_connection_ = remote_id := fun e => hne e.symm
    simp [hne2]
  rw [h]
  exact ⟨rfl, rfl, rfl, rfl, rfl, rfl⟩

/-- C4 at a concrete input: a disconnect of "P2" while "P1" is active. -/
theorem C4_disconnect_of_other_peer_ignored_witness :
    ArmController.OnPeerConnection "P2" false sampleConnected = sampleConnected ∧
    (ArmController.OnPeerConnection "P2" false sampleConnected).current_state_ =
      sampleConnected.current_state_ ∧
    (ArmController.OnPeerConnection "P2" false sampleConnected).active_connection_ =
      sampleConnected.active_connection_ ∧
    (ArmController.OnPeerConnection "P2" false sampleConnected).last_pose_ =
      sampleConnected.last_pose_ ∧
    (ArmController.OnPeerConnection "P2" false sampleConnected).calibration_pose_index_ =
      sampleConnected.calibration_pose_index_ ∧
    (ArmController.OnPeerConnection "P2" false sampleConnected).charging_pose_index_ =
      sampleConnected.charging_pose_index_ :=
  C4_disconnect_of_other_peer_ignored sampleConnected "P2" (by decide)

/-- C5: for every controller (whatever its device state and whoever is
active) and every peer id, `OnPeerConnection(peer, true)` makes the peer the
active connection and the device state IDLE, and changes nothing else: the
last pose, both pose indices and the transmitted frames stay as they were. -/
theorem C5_connect_sets_active_and_idle (c : ArmController) (remote_id : String) :
    ArmController.OnPeerConnection remote_id true c =
      { c with active_connection_ := remote_id, current_state_ := EventState.DEVICE_IDLE } ∧
    (ArmController.OnPeerConnection remote_id true c).active_connection_ = remote_id ∧
    (ArmController.OnPeerConnection remote_id true c).current_state_ =
      EventState.DEVICE_IDLE ∧
    (ArmController.OnPeerConnection remote_id true c).GetCurrentState =
      EventState.DEVICE_IDLE ∧
    (ArmController.OnPeerConnection remote_id true c).last_pose_ = c.last_pose_ ∧
    (ArmController.OnPeerConnection remote_id true c).calibration_pose_index_ =
      c.calibration_pose_index_ ∧
    (ArmController.OnPeerConnection remote_id true c).charging_pose_index_ =
      c.charging_pose_index_ ∧
    (ArmController.OnPeerConnection remote_id true c).transmitted = c.transmitted := by
  have h : ArmController.OnPeerConnection remote_id true c =
      { c with active_connection_ := remote_id,
               current_state_ := EventState.DEVICE_IDLE } := by
    unfold ArmController.OnPeerConnection
    simp
  rw [h]
  exact ⟨rfl, rfl, rfl, rfl, rfl, rfl, rfl, rfl⟩

/-! ## C6: disconnect of the active peer -/

/-- Without an active connection `SimulateAction` only does the pose
bookkeeping. -/
theorem SimulateAction_no_connection (E : External) (K : Constants) (key : MessageKey)
    (c : ArmController) (hc : c.active_connection_ = "") :
    ArmController.SimulateAction E K key c =
      (ArmController.SimulateAction.payload E K key c).2 := by
  unfold ArmController.SimulateAction
  dsimp only
  obtain ⟨pose, i, j, h⟩ := SimulateAction_payload_only_pose E K key c
  rw [SendResponse_no_connection E _ _ _ _ _ (by rw [h]; exact hc)]

/-- Without an active connection every handler of the table, on any key,
changes at most the last pose and the two pose indices. -/
theorem handler_no_connection (E : External) (K : Constants)
    (entry : MessageKey × MessageRouter.RouteEntry)
    (hentry : entry ∈ ArmControllerRouterTable.Get E K)
    (key : MessageKey) (raw : List Nat) (c : ArmController)
    (hc : c.active_connection_ = "") :
    ∃ pose i j, entry.2 key raw c =
      { c with last_pose_ := pose, calibration_pose_index_ := i,
               charging_pose_index_ := j } := by
  have generic : ∀ m s, ∃ pose i j, (ARM_ROUTE_ENTRY E K m s).2 key raw c =
      { c with last_pose_ := pose, calibration_pose_index_ := i,
               charging_pose_index_ := j } := by
    intro m s
    show ∃ pose i j, ArmController.SimulateAction E K key
        (ArmController.SendResponse E key.message_id key.sub_message_id
          K.StatusCode.PROCESSING [] c).2 = _
    rw [two_phase_no_connection E K key c hc]
    exact SimulateAction_payload_only_pose E K key c
  have manual : ∀ m s, ∃ pose i j, (ARM_MANUAL_ROUTE_ENTRY E K m s).2 key raw c =
      { c with last_pose_ := pose, calibration_pose_index_ := i,
               charging_pose_index_ := j } := by
    intro m s
    show ∃ pose i j, ArmController.HandleManualModeMonitorRequest E K
        (ArmController.SendResponse E key.message_id key.sub_message_id
          K.StatusCode.PROCESSING [] c).2 = _
    rw [SendResponse_no_connection E _ _ _ _ c hc]
    unfold ArmController.HandleManualModeMonitorRequest
    dsimp only
    rw [SimulateAction_no_connection E K _ c hc]
    exact SimulateAction_payload_only_pose E K _ c
  simp only [ArmControllerRouterTable.Get, List.mem_cons, List.mem_singleton,
    List.not_mem_nil, or_false] at hentry
  rcases hentry with h | h | h | h | h | h | h | h | h | h | h | h | h | h | h | h | h | h | h
  all_goals subst h
  all_goals first
    | exact generic _ _
    | exact manual _ _

/-- Without an active connection `OnPeerMessage` changes at most the last pose
and the two pose indices. -/
theorem OnPeerMessage_no_connection (E : External) (K : Constants) (remote_id : String)
    (data : List Nat) (c : ArmController) (hc : c.active_connection_ = "") :
    ∃ pose i j, ArmController.OnPeerMessage E K remote_id data c =
      { c with last_pose_ := pose, calibration_pose_index_ := i,
               charging_pose_index_ := j } := by
  have same : ∃ pose i j, c =
      { c with last_pose_ := pose, calibration_pose_index_ := i,
               charging_pose_index_ := j } :=
    ⟨c.last_pose_, c.calibration_pose_index_, c.charging_pose_index_, rfl⟩
  unfold ArmController.OnPeerMessage
  split_ifs
  · exact same
  · unfold MessageRouter.ProcessMessageData
    cases hd : E.decode data with
    | none => exact same
    | some kp =>
      obtain ⟨key, payload⟩ := kp
      dsimp only
      unfold MessageRouter.Route
      cases hf : MessageRouter.Find key (ArmControllerRouterTable.Get E K) with
      | none => exact same
      | some handler =>
        exact handler_no_connection E K (key, handler) (Find_some_mem key _ handler hf)
          key payload c hc

/-- An event other than a connect notification, on a controller that is
disconnected with no active connection, keeps it so and leaves the peer,
hence the transmitted frames, untouched. -/
theorem handle_while_disconnected (E : External) (K : Constants) (c : ArmController)
    (e : Event) (he : e.isConnect = false) (hc : c.active_connection_ = "")
    (hs : c.current_state_ = EventState.DEVICE_DISCONNECTED) :
    (ArmController.handle E K c e).active_connection_ = "" ∧
    (ArmController.handle E K c e).current_state_ = EventState.DEVICE_DISCONNECTED ∧
    (ArmController.handle E K c e).peer_ = c.peer_ := by
  cases e with
  | OnMessage remote_id data =>
    obtain ⟨pose, i, j, h⟩ := OnPeerMessage_no_connection E K remote_id data c hc
    simp only [ArmController.handle]
    rw [h]
    exact ⟨hc, hs, rfl⟩
  | OnConnection remote_id connected =>
    have hconn : connected = false := he
    subst hconn
    simp only [ArmController.handle, ArmController.OnPeerConnection, Bool.false_eq_true,
      if_false]
    split_ifs
    · exact ⟨rfl, rfl, rfl⟩
    · exact ⟨hc, hs, rfl⟩
  | OnError remote_id code msg => exact ⟨hc, hs, rfl⟩
  | SendResponse message_id sub_id status_code payload =>
    simp only [ArmController.handle]
    rw [SendResponse_no_connection E _ _ _ _ c hc]
    exact ⟨hc, hs, rfl⟩
  | TriggerWallEvent message_id =>
    simp only [ArmController.handle, ArmController.TriggerWallEvent]
    rw [SendResponse_no_connection E _ _ _ _ c hc]
    exact ⟨hc, hs, rfl⟩

/-- A sequence of events without a connect notification, on a controller that
is disconnected with no active connection, keeps it so and transmits
nothing. -/
theorem run_while_disconnected (E : External) (K : Constants) (events : List Event) :
    ∀ c : ArmController, (∀ e ∈ events, e.isConnect = false) →
      c.active_connection_ = "" → c.current_state_ = EventState.DEVICE_DISCONNECTED →
      (ArmController.run E K c events).active_connection_ = "" ∧
      (ArmController.run E K c events).current_state_ = EventState.DEVICE_DISCONNECTED ∧
      (ArmController.run E K c events).peer_ = c.peer_ := by
  induction events with
  | nil =>
    intro c _ hc hs
    exact ⟨hc, hs, rfl⟩
  | cons e rest ih =>
    intro c hev hc hs
    obtain ⟨h1, h2, h3⟩ := handle_while_disconnected E K c e
      (hev e (List.mem_cons_self _ _)) hc hs
    obtain ⟨g1, g2, g3⟩ := ih (ArmController.handle E K c e)
      (fun x hx => hev x (List.mem_cons_of_mem _ hx)) h1 h2
    show (ArmController.run E K (ArmController.handle E K c e) rest).active_connection_ = "" ∧ _
    exact ⟨g1, g2, g3.trans h3⟩

/-- C6: for every controller whose active connection is the peer P,
`OnPeerConnection(P, false)` clears the active connection and sets the device
state to DISCONNECTED (which `GetCurrentState` returns), leaving everything
else as it was; and after any sequence of later events that contains no
connect notification (messages, disconnects, errors, responses, wall
triggers), the controller is still disconnected, nothing has been
transmitted, and a `SendResponse` call with any arguments returns false and
transmits nothing. -/
theorem C6_disconnect_of_active_peer (E : External) (K : Constants) (c : ArmController)
    (P : String) (events : List Event) (message_id sub_id status_code : Nat)
    (payload : List Nat) (hP : c.active_connection_ = P)
    (hev : ∀ e ∈ events, e.isConnect = false) :
    ArmController.OnPeerConnection P false c =
      { c with active_connection_ := "",
               current_state_ := EventState.DEVICE_DISCONNECTED } ∧
    (ArmController.OnPeerConnection P false c).active_connection_ = "" ∧
    (ArmController.OnPeerConnection P false c).GetCurrentState =
      EventState.DEVICE_DISCONNECTED ∧
    (ArmController.run E K (ArmController.OnPeerConnection P false c)
      events).GetCurrentState = EventState.DEVICE_DISCONNECTED ∧
    (ArmController.run E K (ArmController.OnPeerConnection P false c)
      events).transmitted = c.transmitted ∧
    ArmController.SendResponse E message_id sub_id status_code payload
        (ArmController.run E K (ArmController.OnPeerConnection P false c) events) =
      (false, ArmController.run E K (ArmController.OnPeerConnection P false c) events) := by
  have h : ArmController.OnPeerConnection P false c =
      { c with active_connection_ := "",
               current_state_ := EventState.DEVICE_DISCONNECTED } := by
    unfold ArmController.OnPeerConnection
    simp [hP]
  obtain ⟨g1, g2, g3⟩ := run_while_disconnected E K events
    (ArmController.OnPeerConnection P false c) hev (by rw [h]) (by rw [h])
  refine ⟨h, by rw [h], by rw [h]; rfl, g2, ?_, SendResponse_no_connection E _ _ _ _ _ g1⟩
  unfold ArmController.transmitted
  rw [g3, h]

/-- C6 at a concrete input: "P1" disconnects from the connected sample
controller; then a calibration request arrives, a wall trigger fires and
"P1" is reported disconnected again, before a response is attempted. -/
theorem C6_disconnect_of_active_peer_witness :
    ArmController.OnPeerConnection "P1" false sampleConnected =
      { sampleConnected with active_connection_ := "",
                             current_state_ := EventState.DEVICE_DISCONNECTED } ∧
    (ArmController.OnPeerConnection "P1" false sampleConnected).active_connection_ = "" ∧
    (ArmController.OnPeerConnection "P1" false sampleConnected).GetCurrentState =
      EventState.DEVICE_DISCONNECTED ∧
    (ArmController.run sampleExternal sampleConstants
      (ArmController.OnPeerConnection "P1" false sampleConnected)
      [Event.OnMessage "P1" [2, 3, 1], Event.TriggerWallEvent 7,
       Event.OnConnection "P1" false]).GetCurrentState = EventState.DEVICE_DISCONNECTED ∧
    (ArmController.run sampleExternal sampleConstants
      (ArmController.OnPeerConnection "P1" false sampleConnected)
      [Event.OnMessage "P1" [2, 3, 1], Event.TriggerWallEvent 7,
       Event.OnConnection "P1" false]).transmitted = sampleConnected.transmitted ∧
    ArmController.SendResponse sampleExternal 2 3 2 []
        (ArmController.run sampleExternal sampleConstants
          (ArmController.OnPeerConnection "P1" false sampleConnected)
          [Event.OnMessage "P1" [2, 3, 1], Event.TriggerWallEvent 7,
           Event.OnConnection "P1" false]) =
      (false, ArmController.run sampleExternal sampleConstants
          (ArmController.OnPeerConnection "P1" false sampleConnected)
          [Event.OnMessage "P1" [2, 3, 1], Event.TriggerWallEvent 7,
           Event.OnConnection "P1" false]) :=
  C6_disconnect_of_active_peer sampleExternal sampleConstants sampleConnected "P1"
    [Event.OnMessage "P1" [2, 3, 1], Event.TriggerWallEvent 7, Event.OnConnection "P1" false]
    2 3 2 [] rfl (by decide)

/-! ## C7, C8, C9: the pose indices and the calibration pose -/

/-- C7: whatever the indices were before, `GeneratePoseForCommand` on
(CALIBRATION, ARM_MOVING_TO_INIT_POSITION) leaves the calibration index 0, and
on (START_CHARGING, ARM_MOVING_TO_INIT_POSITION) leaves the charging index 0
(the two message ids being different constants). -/
theorem C7_init_step_resets_index (K : Constants) (c : ArmController) (status : Nat)
    (hdist : K.MessageIds.START_CHARGING ≠ K.MessageIds.CALIBRATION) :
    (ArmController.GeneratePoseForCommand K
      ⟨K.MessageIds.CALIBRATION, K.SubMessageIds.ARM_MOVING_TO_INIT_POSITION, status⟩
      c).2.calibration_pose_index_ = 0 ∧
    (ArmController.GeneratePoseForCommand K
      ⟨K.MessageIds.START_CHARGING, K.SubMessageIds.ARM_MOVING_TO_INIT_POSITION, status⟩
      c).2.charging_pose_index_ = 0 := by
  unfold ArmController.GeneratePoseForCommand
  simp [hdist]

/-- C7 at a concrete input: both indices at 5 before the init steps. -/
theorem C7_init_step_resets_index_witness :
    (ArmController.GeneratePoseForCommand sampleConstants ⟨2, 3, 1⟩
      { sampleConnected with calibration_pose_index_ := 5, charging_pose_index_ := 5 }
      ).2.calibration_pose_index_ = 0 ∧
    (ArmController.GeneratePoseForCommand sampleConstants ⟨1, 3, 1⟩
      { sampleConnected with calibration_pose_index_ := 5, charging_pose_index_ := 5 }
      ).2.charging_pose_index_ = 0 :=
  C7_init_step_resets_index sampleConstants
    { sampleConnected with calibration_pose_index_ := 5, charging_pose_index_ := 5 } 1
    (by decide)

/-- C8, as stated, fails at the largest `int`: with the calibration index at
2147483647 the calib-position step leaves the index at -2147483648, which is
neither i + 1 nor greater than i. -/
theorem C8_index_at_int_max_counterexample :
    (ArmController.GeneratePoseForCommand sampleConstants ⟨2, 5, 1⟩
      { sampleConnected with calibration_pose_index_ := 2147483647 }
      ).2.calibration_pose_index_ = -2147483648 ∧
    ¬ (2147483647 < (ArmController.GeneratePoseForCommand sampleConstants ⟨2, 5, 1⟩
      { sampleConnected with calibration_pose_index_ := 2147483647 }
      ).2.calibration_pose_index_) ∧
    (ArmController.GeneratePoseForCommand sampleConstants ⟨2, 5, 1⟩
      { sampleConnected with calibration_pose_index_ := 2147483647 }
      ).2.calibration_pose_index_ ≠ 2147483647 + 1 := by
  have h : (ArmController.GeneratePoseForCommand sampleConstants ⟨2, 5, 1⟩
      { sampleConnected with calibration_pose_index_ := 2147483647 }
      ).2.calibration_pose_index_ = -2147483648 := by
    unfold ArmController.GeneratePoseForCommand
    simp [sampleConstants, wrapInt32]
  rw [h]
  decide

/-- An increment below the largest `int` does not wrap. -/
theorem wrapInt32_succ (i : Int) (hlo : -2147483648 ≤ i) (hhi : i < 2147483647) :
    wrapInt32 (i + 1) = i + 1 := by
  unfold wrapInt32
  have h : (i + 1 + 2147483648) % 4294967296 = i + 1 + 2147483648 :=
    Int.emod_eq_of_lt (by omega) (by omega)
  omega

/-- C8 (amended): for every value i of the flow's index below the largest
`int` (-2147483648 ≤ i < 2147483647), `GeneratePoseForCommand` on (CALIBRATION,
ARM_MOVING_TO_CALIB_POSITION) leaves the calibration index equal to i + 1,
strictly greater than i, and on (START_CHARGING, ARM_MOVING_TO_TARGET_POSITION)
leaves the charging index equal to i + 1, strictly greater than i; the pose
returned is the one computed from the pre-increment value i. -/
theorem C8_index_advances_below_int_max (K : Constants) (c : ArmController) (status : Nat)
    (i : Int) (hlo : -2147483648 ≤ i) (hhi : i < 2147483647)
    (hcal : K.SubMessageIds.ARM_MOVING_TO_CALIB_POSITION ≠
      K.SubMessageIds.ARM_MOVING_TO_INIT_POSITION)
    (htar : K.SubMessageIds.ARM_MOVING_TO_TARGET_POSITION ≠
      K.SubMessageIds.ARM_MOVING_TO_INIT_POSITION)
    (hdist : K.MessageIds.START_CHARGING ≠ K.MessageIds.CALIBRATION) :
    ((ArmController.GeneratePoseForCommand K
        ⟨K.MessageIds.CALIBRATION, K.SubMessageIds.ARM_MOVING_TO_CALIB_POSITION, status⟩
        { c with calibration_pose_index_ := i }).2.calibration_pose_index_ = i + 1 ∧
     i < (ArmController.GeneratePoseForCommand K
        ⟨K.MessageIds.CALIBRATION, K.SubMessageIds.ARM_MOVING_TO_CALIB_POSITION, status⟩
        { c with calibration_pose_index_ := i }).2.calibration_pose_index_ ∧
     (ArmController.GeneratePoseForCommand K
        ⟨K.MessageIds.CALIBRATION, K.SubMessageIds.ARM_MOVING_TO_CALIB_POSITION, status⟩
        { c with calibration_pose_index_ := i }).1 =
       { position := ⟨0.30 + 0.01 * (i : ℚ), -0.10 + 0.005 * (i : ℚ),
                      0.25 + 0.002 * (i : ℚ)⟩
         rotation := ⟨0.05 * (i : ℚ), -0.03 * (i : ℚ), 0.02 * (i : ℚ)⟩
         confidence := 1 }) ∧
    ((ArmController.GeneratePoseForCommand K
        ⟨K.MessageIds.START_CHARGING, K.SubMessageIds.ARM_MOVING_TO_TARGET_POSITION, status⟩
        { c with charging_pose_index_ := i }).2.charging_pose_index_ = i + 1 ∧
     i < (ArmController.GeneratePoseForCommand K
        ⟨K.MessageIds.START_CHARGING, K.SubMessageIds.ARM_MOVING_TO_TARGET_POSITION, status⟩
        { c with charging_pose_index_ := i }).2.charging_pose_index_ ∧
     (ArmController.GeneratePoseForCommand K
        ⟨K.MessageIds.START_CHARGING, K.SubMessageIds.ARM_MOVING_TO_TARGET_POSITION, status⟩
        { c with charging_pose_index_ := i }).1 =
       { position := ⟨0.42 + 0.015 * (i : ℚ), 0.06 - 0.006 * (i : ℚ),
                      0.29 - 0.0015 * (i : ℚ)⟩
         rotation := ⟨0.04 * (i : ℚ), 0.02 * (i : ℚ), -0.01 * (i : ℚ)⟩
         confidence := 1 }) := by
  have hw := wrapInt32_succ i hlo hhi
  unfold ArmController.GeneratePoseForCommand
  simp only [beq_self_eq_true, if_true, if_neg hcal, if_neg htar, beq_iff_eq, if_neg hdist, hw]
  refine ⟨⟨trivial, by omega, ?_⟩, ⟨trivial, by omega, ?_⟩⟩
  · simp only [PoseItem.Reset, PoseItem.mk.injEq, PoseItem.Position.mk.injEq,
      PoseItem.Rotation.mk.injEq]
    refine ⟨⟨trivial, ?_, ?_⟩, trivial, trivial⟩ <;> ring
  · simp only [PoseItem.Reset, PoseItem.mk.injEq, PoseItem.Position.mk.injEq,
      PoseItem.Rotation.mk.injEq]
    refine ⟨⟨trivial, ?_, ?_⟩, trivial, trivial⟩ <;> ring

/-- C8 (amended) at a concrete input: both indices at 1. -/
theorem C8_index_advances_below_int_max_witness :
    (ArmController.GeneratePoseForCommand sampleConstants ⟨2, 5, 1⟩
      { sampleConnected with calibration_pose_index_ := 1 }).2.calibration_pose_index_ =
      1 + 1 ∧
    (ArmController.GeneratePoseForCommand sampleConstants ⟨1, 4, 1⟩
      { sampleConnected with charging_pose_index_ := 1 }).2.charging_pose_index_ = 1 + 1 :=
  ⟨(C8_index_advances_below_int_max sampleConstants sampleConnected 1 1 (by decide)
      (by decide) (by decide) (by decide) (by decide)).1.1,
   (C8_index_advances_below_int_max sampleConstants sampleConnected 1 1 (by decide)
      (by decide) (by decide) (by decide) (by decide)).2.1⟩

/-- The calibration calib-position step in closed form: the pose computed
from the index before the call, and the index incremented. -/
theorem GeneratePoseForCommand_calibration_calib (K : Constants) (c : ArmController)
    (status : Nat)
    (hcal : K.SubMessageIds.ARM_MOVING_TO_CALIB_POSITION ≠
      K.SubMessageIds.ARM_MOVING_TO_INIT_POSITION) :
    ArmController.GeneratePoseForCommand K
      ⟨K.MessageIds.CALIBRATION, K.SubMessageIds.ARM_MOVING_TO_CALIB_POSITION, status⟩ c =
      ({ position := ⟨0.30 + 0.01 * (c.calibration_pose_index_ : ℚ),
                      -0.10 + 0.005 * (c.calibration_pose_index_ : ℚ),
                      0.25 + 0.002 * (c.calibration_pose_index_ : ℚ)⟩
         rotation := ⟨0.05 * (c.calibration_pose_index_ : ℚ),
                      -0.03 * (c.calibration_pose_index_ : ℚ),
                      0.02 * (c.calibration_pose_index_ : ℚ)⟩
         confidence := 1 },
       { c with calibration_pose_index_ := wrapInt32 (c.calibration_pose_index_ + 1) }) := by
  unfold ArmController.GeneratePoseForCommand
  simp only [beq_self_eq_true, if_true, if_neg hcal]
  refine Prod.ext ?_ rfl
  congr 2
  ring_nf

/-- C9: for every pre-increment calibration index i, `GeneratePoseForCommand`
on (CALIBRATION, ARM_MOVING_TO_CALIB_POSITION) returns, in exact arithmetic,
position (0.30 + 0.01 i, -0.10 + 0.005 i, 0.25 + 0.002 i) and rotation
(0.05 i, -0.03 i, 0.02 i); for i = 1 this is position (0.31, -0.095, 0.252)
and rotation (0.05, -0.03, 0.02). -/
theorem C9_calibration_pose_formula (K : Constants) (c : ArmController) (status : Nat)
    (i : Int)
    (hcal : K.SubMessageIds.ARM_MOVING_TO_CALIB_POSITION ≠
      K.SubMessageIds.ARM_MOVING_TO_INIT_POSITION) :
    (ArmController.GeneratePoseForCommand K
      ⟨K.MessageIds.CALIBRATION, K.SubMessageIds.ARM_MOVING_TO_CALIB_POSITION, status⟩
      { c with calibration_pose_index_ := i }).1.position =
        ⟨0.30 + 0.01 * (i : ℚ), -0.10 + 0.005 * (i : ℚ), 0.25 + 0.002 * (i : ℚ)⟩ ∧
    (ArmController.GeneratePoseForCommand K
      ⟨K.MessageIds.CALIBRATION, K.SubMessageIds.ARM_MOVING_TO_CALIB_POSITION, status⟩
      { c with calibration_pose_index_ := i }).1.rotation =
        ⟨0.05 * (i : ℚ), -0.03 * (i : ℚ), 0.02 * (i : ℚ)⟩ ∧
    (ArmController.GeneratePoseForCommand K
      ⟨K.MessageIds.CALIBRATION, K.SubMessageIds.ARM_MOVING_TO_CALIB_POSITION, status⟩
      { c with calibration_pose_index_ := 1 }).1.position = ⟨0.31, -0.095, 0.252⟩ ∧
    (ArmController.GeneratePoseForCommand K
      ⟨K.MessageIds.CALIBRATION, K.SubMessageIds.ARM_MOVING_TO_CALIB_POSITION, status⟩
      { c with calibration_pose_index_ := 1 }).1.rotation = ⟨0.05, -0.03, 0.02⟩ := by
  rw [GeneratePoseForCommand_calibration_calib K _ status hcal,
    GeneratePoseForCommand_calibration_calib K _ status hcal]
  refine ⟨rfl, rfl, ?_, ?_⟩
  · show PoseItem.Position.mk _ _ _ = PoseItem.Position.mk _ _ _
    congr 1 <;> norm_num
  · show PoseItem.Rotation.mk _ _ _ = PoseItem.Rotation.mk _ _ _
    congr 1 <;> norm_num

/-- C9 at a concrete input: the pose at calibration index 2. -/
theorem C9_calibration_pose_formula_witness :
    (ArmController.GeneratePoseForCommand sampleConstants ⟨2, 5, 1⟩
      { sampleConnected with calibration_pose_index_ := 2 }).1.position =
        ⟨0.30 + 0.01 * ((2 : Int) : ℚ), -0.10 + 0.005 * ((2 : Int) : ℚ),
         0.25 + 0.002 * ((2 : Int) : ℚ)⟩ ∧
    (ArmController.GeneratePoseForCommand sampleConstants ⟨2, 5, 1⟩
      { sampleConnected with calibration_pose_index_ := 2 }).1.rotation =
        ⟨0.05 * ((2 : Int) : ℚ), -0.03 * ((2 : Int) : ℚ), 0.02 * ((2 : Int) : ℚ)⟩ :=
  ⟨(C9_calibration_pose_formula sampleConstants sampleConnected 1 2 (by decide)).1,
   (C9_calibration_pose_formula sampleConstants sampleConnected 1 2 (by decide)).2.1⟩

/-! ## C10: the calibration scenario -/

/-- For a moving command the payload part of `SimulateAction` records the
generated pose as the last pose and serializes it. -/
theorem SimulateAction_payload_moving (E : External) (K : Constants) (key : MessageKey)
    (c : ArmController)
    (hmove : key.sub_message_id = K.SubMessageIds.ARM_MOVING_TO_INIT_POSITION ∨
      key.sub_message_id = K.SubMessageIds.ARM_MOVING_TO_CALIB_POSITION ∨
      key.sub_message_id = K.SubMessageIds.ARM_MOVING_TO_TARGET_POSITION ∨
      key.sub_message_id = K.SubMessageIds.ARM_MOVING_TO_RESET_POSITION) :
    ArmController.SimulateAction.payload E K key c =
      ((ArmController.GeneratePoseForCommand K key c).1.SerializeToPayload E.encodeFloat,
       { (ArmController.GeneratePoseForCommand K key c).2 with
         last_pose_ := (ArmController.GeneratePoseForCommand K key c).1 }) := by
  unfold ArmController.SimulateAction.payload
  have h : (key.sub_message_id == K.SubMessageIds.ARM_MOVING_TO_INIT_POSITION ||
      key.sub_message_id == K.SubMessageIds.ARM_MOVING_TO_CALIB_POSITION ||
      key.sub_message_id == K.SubMessageIds.ARM_MOVING_TO_TARGET_POSITION ||
      key.sub_message_id == K.SubMessageIds.ARM_MOVING_TO_RESET_POSITION) = true := by
    simp only [Bool.or_eq_true, beq_iff_eq]
    tauto
  simp only [h, if_true]

/-- C11: for every key (any message id, sub id and status, also one of
neither the calibration nor the charging family) and every controller, the
pose returned by `GeneratePoseForCommand` has confidence exactly 1. -/
theorem C11_generated_pose_confidence (K : Constants) (key : MessageKey)
    (c : ArmController) :
    (ArmController.GeneratePoseForCommand K key c).1.confidence = 1 := by
  unfold ArmController.GeneratePoseForCommand
  rfl

/-! ## C12: non-motion steps reuse the last pose -/

/-- A call of `SendResponse` keeps a peer set when one was set, and unset
otherwise. -/
theorem SendResponse_peer_isSome (E : External) (message_id sub_id status_code : Nat)
    (payload : List Nat) (c : ArmController) :
    (ArmController.SendResponse E message_id sub_id status_code payload c).2.peer_.isSome =
      c.peer_.isSome := by
  unfold ArmController.SendResponse
  cases hp : c.peer_ with
  | none => simp [hp]
  | some p =>
    dsimp only
    split_ifs <;> simp [hp]

/-- A call of `SendResponse` transmits nothing or exactly the frame of its
arguments. -/
theorem SendResponse_transmitted (E : External) (message_id sub_id status_code : Nat)
    (payload : List Nat) (c : ArmController) :
    (ArmController.SendResponse E message_id sub_id status_code payload c).2.transmitted =
        c.transmitted ∨
    (ArmController.SendResponse E message_id sub_id status_code payload c).2.transmitted =
        c.transmitted ++ [⟨message_id, sub_id, 1, status_code, payload⟩] := by
  unfold ArmController.SendResponse
  cases hp : c.peer_ with
  | none => exact Or.inl rfl
  | some p =>
    dsimp only
    split_ifs
    · exact Or.inl rfl
    · exact Or.inl rfl
    · right
      simp [ArmController.transmitted, hp]
    · exact Or.inl rfl

/-- For a non-motion key the payload part of `SimulateAction` serializes the
last pose and leaves the controller as it was. -/
theorem SimulateAction_payload_non_motion (E : External) (K : Constants) (key : MessageKey)
    (c : ArmController) (hnon : key.NonMotion K) :
    ArmController.SimulateAction.payload E K key c =
      (c.last_pose_.SerializeToPayload E.encodeFloat, c) := by
  obtain ⟨h1, h2, h3, h4⟩ := hnon
  unfold ArmController.SimulateAction.payload
  have h : (key.sub_message_id == K.SubMessageIds.ARM_MOVING_TO_INIT_POSITION ||
      key.sub_message_id == K.SubMessageIds.ARM_MOVING_TO_CALIB_POSITION ||
      key.sub_message_id == K.SubMessageIds.ARM_MOVING_TO_TARGET_POSITION ||
      key.sub_message_id == K.SubMessageIds.ARM_MOVING_TO_RESET_POSITION) = false := by
    simp only [Bool.or_eq_false_iff, beq_eq_false_iff_ne]
    exact ⟨⟨⟨h1, h2⟩, h3⟩, h4⟩
  simp only [h]
  rfl

/-- For a non-motion key `SimulateAction` is the one `SendResponse` call that
sends COMPLETED with the serialized last pose. -/
theorem SimulateAction_non_motion (E : External) (K : Constants) (key : MessageKey)
    (c : ArmController) (hnon : key.NonMotion K) :
    ArmController.SimulateAction E K key c =
      (ArmController.SendResponse E key.message_id key.sub_message_id K.StatusCode.COMPLETED
        (c.last_pose_.SerializeToPayload E.encodeFloat) c).2 := by
  unfold ArmController.SimulateAction
  rw [SimulateAction_payload_non_motion E K key c hnon]

/-- C12: for every key whose sub id is none of the four moving-to-position
sub ids and every controller with an active connection, the payload that
`SimulateAction` builds is the serialization of the last recorded pose (of
the zero pose when the last pose is still the one of the constructor), the
call changes nothing but the frames transmitted (so the last pose and both
pose indices stay), and the only frame it can transmit is COMPLETED for the
key with that payload, which it does transmit when the controller has a peer
and serializer and transport succeed. -/
theorem C12_non_motion_reuses_last_pose (E : External) (K : Constants) (key : MessageKey)
    (c : ArmController) (hnon : key.NonMotion K) (hconn : c.active_connection_ ≠ "") :
    (ArmController.SimulateAction.payload E K key c).1 =
      c.last_pose_.SerializeToPayload E.encodeFloat ∧
    (ArmController.SimulateAction.payload E K key
      { c with last_pose_ := ArmController.ctor.last_pose_ }).1 =
      PoseItem.Reset.SerializeToPayload E.encodeFloat ∧
    (∃ peer, ArmController.SimulateAction E K key c = { c with peer_ := peer }) ∧
    (ArmController.SimulateAction E K key c).last_pose_ = c.last_pose_ ∧
    (ArmController.SimulateAction E K key c).calibration_pose_index_ =
      c.calibration_pose_index_ ∧
    (ArmController.SimulateAction E K key c).charging_pose_index_ =
      c.charging_pose_index_ ∧
    ((ArmController.SimulateAction E K key c).transmitted = c.transmitted ∨
     (ArmController.SimulateAction E K key c).transmitted = c.transmitted ++
       [⟨key.message_id, key.sub_message_id, 1, K.StatusCode.COMPLETED,
         c.last_pose_.SerializeToPayload E.encodeFloat⟩]) ∧
    (∀ p, c.peer_ = some p → (∀ n, E.CreateMessage n = true) →
      (∀ q n, E.Send q n = true) →
      (ArmController.SimulateAction E K key c).transmitted = p.sent ++
        [⟨key.message_id, key.sub_message_id, 1, K.StatusCode.COMPLETED,
          c.last_pose_.SerializeToPayload E.encodeFloat⟩]) := by
  have hrun := SimulateAction_non_motion E K key c hnon
  obtain ⟨peer, hpeer⟩ := SendResponse_only_peer E key.message_id key.sub_message_id
    K.StatusCode.COMPLETED (c.last_pose_.SerializeToPayload E.encodeFloat) c
  have hstate : ArmController.SimulateAction E K key c = { c with peer_ := peer } :=
    hrun.trans hpeer
  refine ⟨by rw [SimulateAction_payload_non_motion E K key c hnon],
    by rw [SimulateAction_payload_non_motion E K key _ hnon]; rfl,
    ⟨peer, hstate⟩, by rw [hstate], by rw [hstate], by rw [hstate], ?_, ?_⟩
  · rw [hrun]
    exact SendResponse_transmitted E _ _ _ _ c
  · intro p hp hcreate hsend
    rw [hrun, SendResponse_transmits E _ _ _ _ c p hp hconn (hcreate _) (hsend _ _)]
    rfl

/-- C12 at a concrete input: the self-check step of the charging flow on the
connected sample controller, whose last pose is still the zero pose. -/
theorem C12_non_motion_reuses_last_pose_witness :
    (ArmController.SimulateAction sampleExternal sampleConstants ⟨1, 1, 1⟩
      sampleConnected).last_pose_ = sampleConnected.last_pose_ ∧
    (ArmController.SimulateAction sampleExternal sampleConstants ⟨1, 1, 1⟩
      sampleConnected).transmitted = [] ++
        [⟨1, 1, 1, 2, sampleConnected.last_pose_.SerializeToPayload
          sampleExternal.encodeFloat⟩] :=
  ⟨(C12_non_motion_reuses_last_pose sampleExternal sampleConstants ⟨1, 1, 1⟩ sampleConnected
      (by decide) (by decide)).2.2.2.1,
   (C12_non_motion_reuses_last_pose sampleExternal sampleConstants ⟨1, 1, 1⟩ sampleConnected
      (by decide) (by decide)).2.2.2.2.2.2.2 { started := false, sent := [] } rfl
      (fun _ => rfl) (fun _ _ => rfl)⟩

/-! ## C13: key uniqueness -/

/-- The keys of the table are the keys built from the registered names. -/
theorem keys_eq_map_names (E : External) (K : Constants) :
    ArmControllerRouterTable.keys E K = ArmControllerRouterTable.names.map K.routeKey := rfl

/-- Pairwise different message ids: the value determines the name. -/
theorem messageId_injective (K : Constants) (hdist : K.Distinct) :
    Function.Injective K.messageId := by
  intro a b hab
  have hnodup : (List.map K.messageId
      [MessageName.START_CHARGING, MessageName.CALIBRATION, MessageName.RESET,
       MessageName.EMERGENCY_STOP, MessageName.EMERGENCY_STOP_RECOVERY,
       MessageName.MANUAL_REMOTE_CONTROL]).Nodup := hdist.1
  exact List.inj_on_of_nodup_map hnodup (by cases a <;> decide) (by cases b <;> decide) hab

/-- Pairwise different sub ids: the value determines the name. -/
theorem subId_injective (K : Constants) (hdist : K.Distinct) :
    Function.Injective K.subId := by
  intro a b hab
  have hnodup : (List.map K.subId
      [SubName.IDLE, SubName.DEVICE_SELF_CHECK, SubName.OPEN_COVER,
       SubName.ARM_MOVING_TO_INIT_POSITION, SubName.ARM_MOVING_TO_TARGET_POSITION,
       SubName.ARM_MOVING_TO_CALIB_POSITION, SubName.ARM_MOVING_TO_RESET_POSITION,
       SubName.PATH_PLANNING, SubName.CHARGING_INSERTION, SubName.CONNECTION_VERIFICATION,
       SubName.CHARGING_REMOVAL, SubName.CLOSE_COVER]).Nodup := hdist.2
  exact List.inj_on_of_nodup_map hnodup (by cases a <;> decide) (by cases b <;> decide) hab

/-- With pairwise different constants, different names give different keys. -/
theorem routeKey_injective (K : Constants) (hdist : K.Distinct) :
    Function.Injective K.routeKey := by
  intro a b hab
  obtain ⟨a1, a2⟩ := a
  obtain ⟨b1, b2⟩ := b
  simp only [Constants.routeKey, MessageKey.mk.injEq] at hab
  rw [messageId_injective K hdist hab.1, subId_injective K hdist hab.2.1]

/-- With pairwise different constants no two entries of the table share a
key. -/
theorem keys_nodup (E : External) (K : Constants) (hdist : K.Distinct) :
    (ArmControllerRouterTable.keys E K).Nodup := by
  rw [keys_eq_map_names]
  exact List.Nodup.map (routeKey_injective K hdist) (by decide)

/-- In a table without duplicate keys the lookup of an entry's key finds that
entry's handler. -/
theorem Find_of_mem_nodup (table : MessageRouter.RouteTable)
    (hnodup : (table.map Prod.fst).Nodup) (entry : MessageKey × MessageRouter.RouteEntry)
    (hmem : entry ∈ table) : MessageRouter.Find entry.1 table = some entry.2 := by
  induction table with
  | nil => cases hmem
  | cons head rest ih =>
    obtain ⟨k, handler⟩ := head
    rw [List.map_cons, List.nodup_cons] at hnodup
    rcases List.mem_cons.mp hmem with h | h
    · subst h
      rw [MessageRouter.Find, if_pos rfl]
    · have hk : ¬ k = entry.1 := by
        intro e
        exact hnodup.1 (List.mem_map.mpr ⟨entry, h, e.symm⟩)
      rw [MessageRouter.Find, if_neg hk]
      exact ih hnodup.2 h

/-- Every registered key has status PROCESSING. -/
theorem keys_status (E : External) (K : Constants) (k : MessageKey)
    (hk : k ∈ ArmControllerRouterTable.keys E K) : k.status = K.StatusCode.PROCESSING := by
  rw [keys_eq_map_names] at hk
  obtain ⟨n, _, hn⟩ := List.mem_map.mp hk
  rw [← hn]
  rfl

/-- C13: with pairwise different message ids and pairwise different sub ids,
no two entries of the list built by `ArmControllerRouterTable::Get` share a
(message_id, sub_id, status) key; every registered key has status PROCESSING;
two entries with the same (message_id, sub_id) pair are the same entry, and
the lookup of an entry's key finds exactly that entry's handler. -/
theorem C13_route_keys_unique (E : External) (K : Constants) (hdist : K.Distinct) :
    (ArmControllerRouterTable.keys E K).Nodup ∧
    (∀ k ∈ ArmControllerRouterTable.keys E K, k.status = K.StatusCode.PROCESSING) ∧
    (∀ e1 ∈ ArmControllerRouterTable.Get E K, ∀ e2 ∈ ArmControllerRouterTable.Get E K,
      e1.1.message_id = e2.1.message_id → e1.1.sub_message_id = e2.1.sub_message_id →
      e1 = e2) ∧
    (∀ e ∈ ArmControllerRouterTable.Get E K,
      MessageRouter.Find e.1 (ArmControllerRouterTable.Get E K) = some e.2) := by
  have hnodup := keys_nodup E K hdist
  refine ⟨hnodup, fun k hk => keys_status E K k hk, ?_,
    fun e he => Find_of_mem_nodup _ hnodup e he⟩
  intro e1 h1 e2 h2 hm hs
  have s1 := keys_status E K e1.1 (List.mem_map_of_mem Prod.fst h1)
  have s2 := keys_status E K e2.1 (List.mem_map_of_mem Prod.fst h2)
  have hkey : e1.1 = e2.1 := by
    cases hk1 : e1.1
    cases hk2 : e2.1
    rw [hk1] at hm hs s1
    rw [hk2] at hm hs s2
    simp only at hm hs s1 s2
    rw [hm, hs, s1, s2]
  have f1 := Find_of_mem_nodup _ hnodup e1 h1
  have f2 := Find_of_mem_nodup _ hnodup e2 h2
  rw [hkey, f2] at f1
  exact Prod.ext hkey (Option.some.inj f1).symm

/-- C13 at a concrete input: the sample constants are pairwise different. -/
theorem C13_route_keys_unique_witness :
    (ArmControllerRouterTable.keys sampleExternal sampleConstants).Nodup ∧
    (∀ k ∈ ArmControllerRouterTable.keys sampleExternal sampleConstants,
      k.status = sampleConstants.StatusCode.PROCESSING) ∧
    (∀ e1 ∈ ArmControllerRouterTable.Get sampleExternal sampleConstants,
      ∀ e2 ∈ ArmControllerRouterTable.Get sampleExternal sampleConstants,
      e1.1.message_id = e2.1.message_id → e1.1.sub_message_id = e2.1.sub_message_id →
      e1 = e2) ∧
    (∀ e ∈ ArmControllerRouterTable.Get sampleExternal sampleConstants,
      MessageRouter.Find e.1 (ArmControllerRouterTable.Get sampleExternal sampleConstants) =
        some e.2) :=
  C13_route_keys_unique sampleExternal sampleConstants (by decide)

/-! ## What the handlers and events leave alone -/

/-- Agreement on the control part is reflexive. -/
theorem SameControl_refl (c : ArmController) : c.SameControl c :=
  ⟨rfl, rfl, rfl, rfl, rfl, rfl, rfl⟩

/-- Agreement on the control part is transitive. -/
theorem SameControl_trans (a b c : ArmController) (hab : a.SameControl b)
    (hbc : b.SameControl c) : a.SameControl c := by
  obtain ⟨a1, a2, a3, a4, a5, a6, a7⟩ := hab
  obtain ⟨b1, b2, b3, b4, b5, b6, b7⟩ := hbc
  exact ⟨a1.trans b1, a2.trans b2, a3.trans b3, a4.trans b4, a5.trans b5, a6.trans b6,
    a7.trans b7⟩

/-- A call of `SendResponse` leaves the control part as it was. -/
theorem SendResponse_sameControl (E : External) (message_id sub_id status_code : Nat)
    (payload : List Nat) (c : ArmController) :
    (ArmController.SendResponse E message_id sub_id status_code payload c).2.SameControl c := by
  have hsome := SendResponse_peer_isSome E message_id sub_id status_code payload c
  obtain ⟨peer, h⟩ := SendResponse_only_peer E message_id sub_id status_code payload c
  rw [h] at hsome ⊢
  exact ⟨rfl, rfl, hsome, rfl, rfl, rfl, rfl⟩

/-- The payload part of `SimulateAction` leaves the control part as it was. -/
theorem SimulateAction_payload_sameControl (E : External) (K : Constants)
    (key : MessageKey) (c : ArmController) :
    (ArmController.SimulateAction.payload E K key c).2.SameControl c := by
  obtain ⟨pose, i, j, h⟩ := SimulateAction_payload_only_pose E K key c
  rw [h]
  exact ⟨rfl, rfl, rfl, rfl, rfl, rfl, rfl⟩

/-- A call of `SimulateAction` leaves the control part as it was. -/
theorem SimulateAction_sameControl (E : External) (K : Constants) (key : MessageKey)
    (c : ArmController) : (ArmController.SimulateAction E K key c).SameControl c := by
  unfold ArmController.SimulateAction
  exact SameControl_trans _ _ _ (SendResponse_sameControl E _ _ _ _ _)
    (SimulateAction_payload_sameControl E K key c)

/-- Every handler of the table, on any key, leaves the control part as it
was. -/
theorem handler_sameControl (E : External) (K : Constants)
    (entry : MessageKey × MessageRouter.RouteEntry)
    (hentry : entry ∈ ArmControllerRouterTable.Get E K)
    (key : MessageKey) (raw : List Nat) (c : ArmController) :
    (entry.2 key raw c).SameControl c := by
  have generic : ∀ m s, ((ARM_ROUTE_ENTRY E K m s).2 key raw c).SameControl c := by
    intro m s
    show (ArmController.SimulateAction E K key
        (ArmController.SendResponse E key.message_id key.sub_message_id
          K.StatusCode.PROCESSING [] c).2).SameControl c
    exact SameControl_trans _ _ _ (SimulateAction_sameControl E K key _)
      (SendResponse_sameControl E _ _ _ _ c)
  have manual : ∀ m s, ((ARM_MANUAL_ROUTE_ENTRY E K m s).2 key raw c).SameControl c := by
    intro m s
    show (ArmController.SimulateAction E K _
        (ArmController.SendResponse E key.message_id key.sub_message_id
          K.StatusCode.PROCESSING [] c).2).SameControl c
    exact SameControl_trans _ _ _ (SimulateAction_sameControl E K _ _)
      (SendResponse_sameControl E _ _ _ _ c)
  simp only [ArmControllerRouterTable.Get, List.mem_cons, List.mem_singleton,
    List.not_mem_nil, or_false] at hentry
  rcases hentry with h | h | h | h | h | h | h | h | h | h | h | h | h | h | h | h | h | h | h
  all_goals subst h
  all_goals first
    | exact generic _ _
    | exact manual _ _

/-- A call of `OnPeerMessage` leaves the control part as it was. -/
theorem OnPeerMessage_sameControl (E : External) (K : Constants) (remote_id : String)
    (data : List Nat) (c : ArmController) :
    (ArmController.OnPeerMessage E K remote_id data c).SameControl c := by
  unfold ArmController.OnPeerMessage
  split_ifs
  · exact SameControl_refl c
  · unfold MessageRouter.ProcessMessageData
    cases hd : E.decode data with
    | none => exact SameControl_refl c
    | some kp =>
      obtain ⟨key, payload⟩ := kp
      dsimp only
      unfold MessageRouter.Route
      cases hf : MessageRouter.Find key (ArmControllerRouterTable.Get E K) with
      | none => exact SameControl_refl c
      | some handler =>
        exact handler_sameControl E K (key, handler) (Find_some_mem key _ handler hf)
          key payload c

/-- An event other than a connection notification leaves the control part as
it was; a connection notification leaves the flags and the peer as they
were. -/
theorem handle_flags (E : External) (K : Constants) (c : ArmController) (e : Event) :
    (ArmController.handle E K c e).peer_.isSome = c.peer_.isSome ∧
    (ArmController.handle E K c e).peer_event_handler_ = c.peer_event_handler_ ∧
    (ArmController.handle E K c e).message_router_ = c.message_router_ ∧
    (ArmController.handle E K c e).initialized_ = c.initialized_ ∧
    (ArmController.handle E K c e).running_ = c.running_ := by
  have of_same : ∀ a : ArmController, a.SameControl c →
      a.peer_.isSome = c.peer_.isSome ∧ a.peer_event_handler_ = c.peer_event_handler_ ∧
      a.message_router_ = c.message_router_ ∧ a.initialized_ = c.initialized_ ∧
      a.running_ = c.running_ := fun a h => ⟨h.2.2.1, h.2.2.2.1, h.2.2.2.2.1, h.2.2.2.2.2.1,
        h.2.2.2.2.2.2⟩
  cases e with
  | OnMessage remote_id data => exact of_same _ (OnPeerMessage_sameControl E K remote_id data c)
  | OnConnection remote_id connected =>
    simp only [ArmController.handle, ArmController.OnPeerConnection]
    split_ifs <;> exact ⟨rfl, rfl, rfl, rfl, rfl⟩
  | OnError remote_id code msg => exact ⟨rfl, rfl, rfl, rfl, rfl⟩
  | SendResponse message_id sub_id status_code payload =>
    exact of_same _ (SendResponse_sameControl E _ _ _ _ c)
  | TriggerWallEvent message_id =>
    exact of_same _ (SendResponse_sameControl E _ _ _ _ c)

/-! ## C14: Start -/

/-- The freshly constructed controller is consistent. -/
theorem ctor_consistent : ArmController.ctor.Consistent := by decide

/-- A call of `Initialize` keeps a consistent controller consistent, whatever
throws. -/
theorem Initialize_consistent (L : Lifecycle) (endpoint : String) (c : ArmController)
    (hc : c.Consistent) : (ArmController.Initialize L endpoint c).2.Consistent := by
  obtain ⟨h1, h2⟩ := hc
  unfold ArmController.Initialize
  by_cases hi : c.initialized_ = true
  · rw [if_pos hi]
    exact ⟨h1, h2⟩
  · have hr : c.running_ = true → False := fun h => hi (h1 h)
    rw [if_neg hi]
    dsimp only
    split_ifs
    all_goals first
      | exact ⟨fun h => absurd h hr, fun h => absurd h hi⟩
      | exact ⟨fun _ => rfl, fun _ => ⟨rfl, rfl, rfl⟩⟩

/-- On a consistent controller `Start` returns (it dereferences no null peer)
and leaves the controller consistent. -/
theorem Start_consistent (L : Lifecycle) (c : ArmController) (hc : c.Consistent) :
    ∃ r, ArmController.Start L c = some r ∧ r.2.Consistent := by
  obtain ⟨h1, h2⟩ := hc
  unfold ArmController.Start
  by_cases hg : c.initialized_ = false ∨ c.running_ = true
  · rw [if_pos hg]
    exact ⟨_, rfl, h1, h2⟩
  · rw [if_neg hg]
    have hi : c.initialized_ = true := by
      cases h : c.initialized_
      · exact absurd (Or.inl h) hg
      · rfl
    obtain ⟨hp, hh, hm⟩ := h2 hi
    cases hpeer : c.peer_ with
    | none => rw [hpeer] at hp; cases hp
    | some p =>
      dsimp only
      split_ifs
      · exact ⟨_, rfl, h1, h2⟩
      · exact ⟨_, rfl, fun _ => hi, fun _ => ⟨rfl, hh, hm⟩⟩

/-- A call of `Stop` keeps a consistent controller consistent. -/
theorem Stop_consistent (c : ArmController) (hc : c.Consistent) :
    (ArmController.Stop c).Consistent := by
  obtain ⟨h1, h2⟩ := hc
  unfold ArmController.Stop
  split_ifs
  · exact ⟨h1, h2⟩
  · refine ⟨fun h => Bool.noConfusion h, fun hi => ?_⟩
    obtain ⟨hp, hh, hm⟩ := h2 hi
    refine ⟨?_, hh, hm⟩
    show (c.peer_.map _).isSome = true
    rw [Option.isSome_map']
    exact hp

/-- An event keeps a consistent controller consistent. -/
theorem handle_consistent (E : External) (K : Constants) (c : ArmController) (e : Event)
    (hc : c.Consistent) : (ArmController.handle E K c e).Consistent := by
  obtain ⟨h1, h2⟩ := hc
  obtain ⟨f1, f2, f3, f4, f5⟩ := handle_flags E K c e
  unfold ArmController.Consistent
  rw [f1, f2, f3, f4, f5]
  exact ⟨h1, h2⟩

/-- Every sequence of `Initialize`, `Start`, `Stop` and events on a consistent
controller runs through (no `Start` dereferences a null peer) and ends in a
consistent controller. -/
theorem calls_consistent (L : Lifecycle) (E : External) (K : Constants)
    (calls : List Call) :
    ∀ c : ArmController, c.Consistent →
      ∃ c1, ArmController.calls L E K c calls = some c1 ∧ c1.Consistent := by
  induction calls with
  | nil =>
    intro c hc
    exact ⟨c, rfl, hc⟩
  | cons x rest ih =>
    intro c hc
    have step : ∃ c1, ArmController.call L E K c x = some c1 ∧ c1.Consistent := by
      cases x with
      | Initialize endpoint => exact ⟨_, rfl, Initialize_consistent L endpoint c hc⟩
      | Start =>
        obtain ⟨r, hr, hcons⟩ := Start_consistent L c hc
        exact ⟨r.2, by simp [ArmController.call, hr], hcons⟩
      | Stop => exact ⟨_, rfl, Stop_consistent c hc⟩
      | event e => exact ⟨_, rfl, handle_consistent E K c e hc⟩
    obtain ⟨c1, h1, hc1⟩ := step
    obtain ⟨c2, h2, hc2⟩ := ih c1 hc1
    refine ⟨c2, ?_, hc2⟩
    rw [ArmController.calls, h1]
    exact h2

/-- C14: on a consistent controller (every controller reached from the
constructor is one, see `calls_consistent`): when it is initialized and not
running, `Start` starts the transport and returns true with `running_` set if
the transport start succeeds, and returns false leaving the controller as it
was (not running) otherwise; when it is already running, `Start` returns true
and changes nothing, the peer included; when it is not initialized, `Start`
returns false and changes nothing. -/
theorem C14_start (L : Lifecycle) (c : ArmController) (hcons : c.Consistent) :
    (c.initialized_ = true → c.running_ = false →
      ∃ p, c.peer_ = some p ∧
        (L.peerStart p = true →
          ArmController.Start L c =
            some (true, { c with running_ := true,
                                 peer_ := some { p with started := true } })) ∧
        (L.peerStart p = false → ArmController.Start L c = some (false, c))) ∧
    (c.running_ = true → ArmController.Start L c = some (true, c)) ∧
    (c.initialized_ = false → ArmController.Start L c = some (false, c)) := by
  obtain ⟨h1, h2⟩ := hcons
  refine ⟨?_, ?_, ?_⟩
  · intro hi hr
    obtain ⟨hp, _, _⟩ := h2 hi
    cases hpeer : c.peer_ with
    | none => rw [hpeer] at hp; cases hp
    | some p =>
      refine ⟨p, rfl, ?_, ?_⟩
      · intro hs
        unfold ArmController.Start
        simp [hi, hr, hpeer, hs]
      · intro hs
        unfold ArmController.Start
        simp [hi, hr, hpeer, hs]
  · intro hr
    unfold ArmController.Start
    simp [hr]
  · intro hi
    have hr : c.running_ = false := by
      cases h : c.running_
      · rfl
      · rw [h1 h] at hi
        cases hi
    unfold ArmController.Start
    simp [hi, hr]

/-- C14 at a concrete input: the initialized sample controller, with a
transport that starts. -/
theorem C14_start_witness :
    ArmController.Start sampleLifecycle sampleInitialized =
      some (true, { sampleInitialized with
                      running_ := true
                      peer_ := some { started := true, sent := [] } }) :=
  match (C14_start sampleLifecycle sampleInitialized (by decide)).1 rfl rfl with
  | ⟨_, hp, hs, _⟩ => by
    cases hp
    exact hs rfl

/-! ## C15: Initialize -/

/-- C15, as stated, fails when handler registration throws: on the freshly
constructed controller `Initialize` returns false and leaves `initialized_`
false, yet the peer and the event handler assigned before the throw stay set,
so the controller is not as it was before the call. -/
theorem C15_register_throws_counterexample :
    (ArmController.Initialize sampleRegisterThrows "ipc:///tmp/vision_arm.ipc"
      ArmController.ctor).1 = false ∧
    (ArmController.Initialize sampleRegisterThrows "ipc:///tmp/vision_arm.ipc"
      ArmController.ctor).2.initialized_ = false ∧
    ArmController.ctor.peer_ = none ∧
    ArmController.ctor.peer_event_handler_ = false ∧
    (ArmController.Initialize sampleRegisterThrows "ipc:///tmp/vision_arm.ipc"
      ArmController.ctor).2.peer_ = some { started := false, sent := [] } ∧
    (ArmController.Initialize sampleRegisterThrows "ipc:///tmp/vision_arm.ipc"
      ArmController.ctor).2.peer_event_handler_ = true ∧
    (ArmController.Initialize sampleRegisterThrows "ipc:///tmp/vision_arm.ipc"
      ArmController.ctor).2 ≠ ArmController.ctor := by
  refine ⟨rfl, rfl, rfl, rfl, rfl, rfl, ?_⟩
  intro h
  have hp := congrArg ArmController.peer_event_handler_ h
  exact Bool.noConfusion hp

/-- C15 (amended): when a step of `Initialize` throws, `Initialize` returns
false and leaves `initialized_` false and everything else as it was, except
that the members assigned before the throwing step stay set: none of them
when the transport construction throws, the peer when the handler
construction throws, the peer and the event handler when handler registration
or router construction throws, and the router too when `InitializeRoutes`
throws. When nothing throws it returns true with peer, event handler and
router set, device state IDLE and `initialized_` true. On an initialized
controller it returns true and changes nothing. -/
theorem C15_initialize_outcomes (L : Lifecycle) (endpoint : String) (c : ArmController) :
    (c.initialized_ = true → ArmController.Initialize L endpoint c = (true, c)) ∧
    (c.initialized_ = false →
      (L.throws endpoint InitStep.MakePeer = true →
        ArmController.Initialize L endpoint c = (false, c)) ∧
      (L.throws endpoint InitStep.MakePeer = false →
        L.throws endpoint InitStep.MakeHandler = true →
        ArmController.Initialize L endpoint c =
          (false, { c with peer_ := some { started := false, sent := [] } })) ∧
      (L.throws endpoint InitStep.MakePeer = false →
        L.throws endpoint InitStep.MakeHandler = false →
        (L.throws endpoint InitStep.RegisterEventHandler = true ∨
          L.throws endpoint InitStep.MakeRouter = true) →
        ArmController.Initialize L endpoint c =
          (false, { c with peer_ := some { started := false, sent := [] },
                           peer_event_handler_ := true })) ∧
      (L.throws endpoint InitStep.MakePeer = false →
        L.throws endpoint InitStep.MakeHandler = false →
        L.throws endpoint InitStep.RegisterEventHandler = false →
        L.throws endpoint InitStep.MakeRouter = false →
        L.throws endpoint InitStep.InitializeRoutes = true →
        ArmController.Initialize L endpoint c =
          (false, { c with peer_ := some { started := false, sent := [] },
                           peer_event_handler_ := true, message_router_ := true })) ∧
      ((∀ step, L.throws endpoint step = false) →
        ArmController.Initialize L endpoint c =
          (true, { c with peer_ := some { started := false, sent := [] },
                          peer_event_handler_ := true, message_router_ := true,
                          current_state_ := EventState.DEVICE_IDLE,
                          initialized_ := true }))) ∧
    ((ArmController.Initialize L endpoint c).1 = false →
      (ArmController.Initialize L endpoint c).2.initialized_ = false ∧
      (ArmController.Initialize L endpoint c).2.running_ = c.running_ ∧
      (ArmController.Initialize L endpoint c).2.current_state_ = c.current_state_ ∧
      (ArmController.Initialize L endpoint c).2.active_connection_ = c.active_connection_ ∧
      (ArmController.Initialize L endpoint c).2.last_pose_ = c.last_pose_ ∧
      (ArmController.Initialize L endpoint c).2.calibration_pose_index_ =
        c.calibration_pose_index_ ∧
      (ArmController.Initialize L endpoint c).2.charging_pose_index_ =
        c.charging_pose_index_) := by
  refine ⟨?_, ?_, ?_⟩
  · intro hi
    unfold ArmController.Initialize
    simp [hi]
  · intro hi
    refine ⟨?_, ?_, ?_, ?_, ?_⟩
    · intro t1
      unfold ArmController.Initialize
      simp [hi, t1]
    · intro t1 t2
      unfold ArmController.Initialize
      simp [hi, t1, t2]
    · intro t1 t2 t34
      unfold ArmController.Initialize
      rcases t34 with t3 | t4
      · simp [hi, t1, t2, t3]
      · by_cases t3 : L.throws endpoint InitStep.RegisterEventHandler = true
        · simp [hi, t1, t2, t3]
        · simp [hi, t1, t2, t3, t4]
    · intro t1 t2 t3 t4 t5
      unfold ArmController.Initialize
      simp [hi, t1, t2, t3, t4, t5]
    · intro hall
      unfold ArmController.Initialize
      simp [hi, hall]
  · unfold ArmController.Initialize
    by_cases hi : c.initialized_ = true
    · simp [hi]
    · have hf : c.initialized_ = false := by
        cases h : c.initialized_
        · rfl
        · exact absurd h hi
      rw [if_neg hi]
      dsimp only
      split_ifs
      all_goals first
        | exact fun _ => ⟨hf, rfl, rfl, rfl, rfl, rfl, rfl⟩
        | exact fun h => False.elim h

/-- C15 (amended) at a concrete input: nothing throws on the freshly
constructed controller. -/
theorem C15_initialize_outcomes_witness :
    ArmController.Initialize sampleLifecycle "ipc:///tmp/vision_arm.ipc" ArmController.ctor =
      (true, { ArmController.ctor with
                 peer_ := some { started := false, sent := [] }
                 peer_event_handler_ := true
                 message_router_ := true
                 current_state_ := EventState.DEVICE_IDLE
                 initialized_ := true }) :=
  ((C15_initialize_outcomes sampleLifecycle "ipc:///tmp/vision_arm.ipc" ArmController.ctor).2.1
    rfl).2.2.2.2 (fun _ => rfl)

/-! ## C16, C17: the manual handler and motion steps -/

/-- A call of `SimulateAction` leaves the controller that its payload part
computes, up to the peer. -/
theorem SimulateAction_state (E : External) (K : Constants) (key : MessageKey)
    (c : ArmController) :
    ∃ peer, ArmController.SimulateAction E K key c =
      { (ArmController.SimulateAction.payload E K key c).2 with peer_ := peer } := by
  unfold ArmController.SimulateAction
  exact SendResponse_only_peer E _ _ _ _ _

/-- A call of `SimulateAction` transmits nothing or exactly the COMPLETED
frame of the key with the payload built. -/
theorem SimulateAction_transmitted (E : External) (K : Constants) (key : MessageKey)
    (c : ArmController) :
    (ArmController.SimulateAction E K key c).transmitted = c.transmitted ∨
    (ArmController.SimulateAction E K key c).transmitted = c.transmitted ++
      [⟨key.message_id, key.sub_message_id, 1, K.StatusCode.COMPLETED,
        (ArmController.SimulateAction.payload E K key c).1⟩] := by
  have hsame : (ArmController.SimulateAction.payload E K key c).2.transmitted =
      c.transmitted := by
    obtain ⟨pose, i, j, h⟩ := SimulateAction_payload_only_pose E K key c
    rw [h]
    rfl
  have h := SendResponse_transmitted E key.message_id key.sub_message_id
    K.StatusCode.COMPLETED (ArmController.SimulateAction.payload E K key c).1
    (ArmController.SimulateAction.payload E K key c).2
  rw [hsame] at h
  exact h

/-- With a peer, an active connection and a serializer and transport that
succeed, `SimulateAction` transmits the COMPLETED frame of the key with the
payload built. -/
theorem SimulateAction_transmits (E : External) (K : Constants) (key : MessageKey)
    (c : ArmController) (p : ZmqPeer) (hp : c.peer_ = some p)
    (hc : c.active_connection_ ≠ "")
    (hcreate : ∀ n, E.CreateMessage n = true) (hsend : ∀ q n, E.Send q n = true) :
    (ArmController.SimulateAction E K key c).transmitted = p.sent ++
      [⟨key.message_id, key.sub_message_id, 1, K.StatusCode.COMPLETED,
        (ArmController.SimulateAction.payload E K key c).1⟩] := by
  obtain ⟨pose, i, j, h⟩ := SimulateAction_payload_only_pose E K key c
  unfold ArmController.SimulateAction
  dsimp only
  rw [SendResponse_transmits E _ _ _ _ _ p (by rw [h]; exact hp) (by rw [h]; exact hc)
    (hcreate _) (hsend _ _)]
  rfl

/-- C16: for every controller, the manual route handler run on its registered
key (MANUAL_REMOTE_CONTROL, IDLE, PROCESSING) leaves exactly the controller
that the generic two-phase handler leaves on that key, transmitted frames
included. And (IDLE being none of the moving sub ids)
`HandleManualModeMonitorRequest` changes nothing but the frames transmitted,
so neither the last pose nor the pose indices; the only frame it can transmit
is COMPLETED for (MANUAL_REMOTE_CONTROL, IDLE) with the serialized last pose,
which it does transmit when the controller has a peer and an active
connection and serializer and transport succeed. -/
theorem C16_manual_handler_equals_generic (E : External) (K : Constants)
    (c : ArmController) (raw : List Nat)
    (hidle : MessageKey.NonMotion K
      ⟨K.MessageIds.MANUAL_REMOTE_CONTROL, K.SubMessageIds.IDLE, K.StatusCode.PROCESSING⟩) :
    MessageRouter.invoke
        (ARM_MANUAL_ROUTE_ENTRY E K K.MessageIds.MANUAL_REMOTE_CONTROL K.SubMessageIds.IDLE)
        raw c =
      MessageRouter.invoke
        (ARM_ROUTE_ENTRY E K K.MessageIds.MANUAL_REMOTE_CONTROL K.SubMessageIds.IDLE) raw c ∧
    (MessageRouter.invoke
        (ARM_MANUAL_ROUTE_ENTRY E K K.MessageIds.MANUAL_REMOTE_CONTROL K.SubMessageIds.IDLE)
        raw c).transmitted =
      (MessageRouter.invoke
        (ARM_ROUTE_ENTRY E K K.MessageIds.MANUAL_REMOTE_CONTROL K.SubMessageIds.IDLE)
        raw c).transmitted ∧
    (∃ peer, ArmController.HandleManualModeMonitorRequest E K c = { c with peer_ := peer }) ∧
    (ArmController.HandleManualModeMonitorRequest E K c).last_pose_ = c.last_pose_ ∧
    (ArmController.HandleManualModeMonitorRequest E K c).calibration_pose_index_ =
      c.calibration_pose_index_ ∧
    (ArmController.HandleManualModeMonitorRequest E K c).charging_pose_index_ =
      c.charging_pose_index_ ∧
    ((ArmController.HandleManualModeMonitorRequest E K c).transmitted = c.transmitted ∨
     (ArmController.HandleManualModeMonitorRequest E K c).transmitted = c.transmitted ++
       [⟨K.MessageIds.MANUAL_REMOTE_CONTROL, K.SubMessageIds.IDLE, 1, K.StatusCode.COMPLETED,
         c.last_pose_.SerializeToPayload E.encodeFloat⟩]) ∧
    (∀ p, c.peer_ = some p → c.active_connection_ ≠ "" →
      (∀ n, E.CreateMessage n = true) → (∀ q n, E.Send q n = true) →
      (ArmController.HandleManualModeMonitorRequest E K c).transmitted = p.sent ++
        [⟨K.MessageIds.MANUAL_REMOTE_CONTROL, K.SubMessageIds.IDLE, 1, K.StatusCode.COMPLETED,
          c.last_pose_.SerializeToPayload E.encodeFloat⟩]) := by
  have hpay := SimulateAction_payload_non_motion E K
    ⟨K.MessageIds.MANUAL_REMOTE_CONTROL, K.SubMessageIds.IDLE, K.StatusCode.PROCESSING⟩ c hidle
  have hrun : ArmController.HandleManualModeMonitorRequest E K c =
      ArmController.SimulateAction E K
        ⟨K.MessageIds.MANUAL_REMOTE_CONTROL, K.SubMessageIds.IDLE, K.StatusCode.PROCESSING⟩
        c := rfl
  obtain ⟨peer, hstate⟩ := SimulateAction_state E K
    ⟨K.MessageIds.MANUAL_REMOTE_CONTROL, K.SubMessageIds.IDLE, K.StatusCode.PROCESSING⟩ c
  rw [hpay] at hstate
  have htrans := SimulateAction_transmitted E K
    ⟨K.MessageIds.MANUAL_REMOTE_CONTROL, K.SubMessageIds.IDLE, K.StatusCode.PROCESSING⟩ c
  rw [hpay] at htrans
  refine ⟨rfl, rfl, ⟨peer, hrun.trans hstate⟩, by rw [hrun, hstate], by rw [hrun, hstate],
    by rw [hrun, hstate], by rw [hrun]; exact htrans, ?_⟩
  intro p hp hc hcreate hsend
  have h := SimulateAction_transmits E K
    ⟨K.MessageIds.MANUAL_REMOTE_CONTROL, K.SubMessageIds.IDLE, K.StatusCode.PROCESSING⟩
    c p hp hc hcreate hsend
  rw [hpay] at h
  rw [hrun]
  exact h

/-- C16 at a concrete input: the manual entry on the connected sample
controller. -/
theorem C16_manual_handler_equals_generic_witness :
    MessageRouter.invoke (ARM_MANUAL_ROUTE_ENTRY sampleExternal sampleConstants 6 0) []
        sampleConnected =
      MessageRouter.invoke (ARM_ROUTE_ENTRY sampleExternal sampleConstants 6 0) []
        sampleConnected ∧
    (ArmController.HandleManualModeMonitorRequest sampleExternal sampleConstants
      sampleConnected).last_pose_ = sampleConnected.last_pose_ :=
  ⟨(C16_manual_handler_equals_generic sampleExternal sampleConstants sampleConnected []
      (by decide)).1,
   (C16_manual_handler_equals_generic sampleExternal sampleConstants sampleConnected []
      (by decide)).2.2.2.1⟩

/-- C17: for every key whose sub id is one of the four moving-to-position sub
ids and every controller, after `SimulateAction` the last pose is the pose
that `GeneratePoseForCommand` returns for that key on the controller before
the call, the pose indices are the ones it leaves, and the payload built for
COMPLETED is the serialization of that same pose: the only frame the call can
transmit is COMPLETED for the key with that payload, and it does transmit it
when the controller has a peer and an active connection and serializer and
transport succeed. For (RESET, ARM_MOVING_TO_RESET_POSITION), RESET being
neither CALIBRATION nor START_CHARGING, that pose is the zero pose with
confidence 1. -/
theorem C17_motion_overwrites_last_pose (E : External) (K : Constants) (key : MessageKey)
    (c : ArmController) (status : Nat) (hmove : key.Motion K) :
    (ArmController.SimulateAction E K key c).last_pose_ =
      (ArmController.GeneratePoseForCommand K key c).1 ∧
    (ArmController.SimulateAction E K key c).calibration_pose_index_ =
      (ArmController.GeneratePoseForCommand K key c).2.calibration_pose_index_ ∧
    (ArmController.SimulateAction E K key c).charging_pose_index_ =
      (ArmController.GeneratePoseForCommand K key c).2.charging_pose_index_ ∧
    (ArmController.SimulateAction.payload E K key c).1 =
      (ArmController.GeneratePoseForCommand K key c).1.SerializeToPayload E.encodeFloat ∧
    ((ArmController.SimulateAction E K key c).transmitted = c.transmitted ∨
     (ArmController.SimulateAction E K key c).transmitted = c.transmitted ++
       [⟨key.message_id, key.sub_message_id, 1, K.StatusCode.COMPLETED,
         (ArmController.GeneratePoseForCommand K key c).1.SerializeToPayload
           E.encodeFloat⟩]) ∧
    (∀ p, c.peer_ = some p → c.active_connection_ ≠ "" →
      (∀ n, E.CreateMessage n = true) → (∀ q n, E.Send q n = true) →
      (ArmController.SimulateAction E K key c).transmitted = p.sent ++
        [⟨key.message_id, key.sub_message_id, 1, K.StatusCode.COMPLETED,
          (ArmController.GeneratePoseForCommand K key c).1.SerializeToPayload
            E.encodeFloat⟩]) ∧
    (K.MessageIds.RESET ≠ K.MessageIds.CALIBRATION →
      K.MessageIds.RESET ≠ K.MessageIds.START_CHARGING →
      (ArmController.SimulateAction E K
        ⟨K.MessageIds.RESET, K.SubMessageIds.ARM_MOVING_TO_RESET_POSITION, status⟩
        c).last_pose_ = { PoseItem.Reset with confidence := 1 }) := by
  have hpay := SimulateAction_payload_moving E K key c hmove
  obtain ⟨peer, hstate⟩ := SimulateAction_state E K key c
  have htrans := SimulateAction_transmitted E K key c
  rw [hpay] at hstate htrans
  refine ⟨by rw [hstate], by rw [hstate], by rw [hstate], by rw [hpay], htrans, ?_, ?_⟩
  · intro p hp hc hcreate hsend
    have h := SimulateAction_transmits E K key c p hp hc hcreate hsend
    rw [hpay] at h
    exact h
  · intro h1 h2
    obtain ⟨peer2, hstate2⟩ := SimulateAction_state E K
      ⟨K.MessageIds.RESET, K.SubMessageIds.ARM_MOVING_TO_RESET_POSITION, status⟩ c
    rw [SimulateAction_payload_moving E K _ c (Or.inr (Or.inr (Or.inr rfl)))] at hstate2
    rw [hstate2]
    unfold ArmController.GeneratePoseForCommand
    simp [h1, h2]

/-- C17 at a concrete input: the charging target step on the connected sample
controller. -/
theorem C17_motion_overwrites_last_pose_witness :
    (ArmController.SimulateAction sampleExternal sampleConstants ⟨1, 4, 1⟩
      sampleConnected).last_pose_ =
      (ArmController.GeneratePoseForCommand sampleConstants ⟨1, 4, 1⟩ sampleConnected).1 ∧
    (ArmController.SimulateAction sampleExternal sampleConstants ⟨1, 4, 1⟩
      sampleConnected).transmitted = [] ++
        [⟨1, 4, 1, 2,
          (ArmController.GeneratePoseForCommand sampleConstants ⟨1, 4, 1⟩
            sampleConnected).1.SerializeToPayload sampleExternal.encodeFloat⟩] :=
  ⟨(C17_motion_overwrites_last_pose sampleExternal sampleConstants ⟨1, 4, 1⟩ sampleConnected
      1 (by decide)).1,
   (C17_motion_overwrites_last_pose sampleExternal sampleConstants ⟨1, 4, 1⟩ sampleConnected
      1 (by decide)).2.2.2.2.2.1 { started := false, sent := [] } rfl (by decide)
      (fun _ => rfl) (fun _ _ => rfl)⟩

/-! ## C18, C19: the charging poses -/

/-- The charging target-position step in closed form: the pose computed from
the index before the call, and the index incremented. -/
theorem GeneratePoseForCommand_charging_target (K : Constants) (c : ArmController)
    (status : Nat)
    (htar : K.SubMessageIds.ARM_MOVING_TO_TARGET_POSITION ≠
      K.SubMessageIds.ARM_MOVING_TO_INIT_POSITION)
    (hdist : K.MessageIds.START_CHARGING ≠ K.MessageIds.CALIBRATION) :
    ArmController.GeneratePoseForCommand K
      ⟨K.MessageIds.START_CHARGING, K.SubMessageIds.ARM_MOVING_TO_TARGET_POSITION, status⟩ c =
      ({ position := ⟨0.42 + 0.015 * (c.charging_pose_index_ : ℚ),
                      0.06 - 0.006 * (c.charging_pose_index_ : ℚ),
                      0.29 - 0.0015 * (c.charging_pose_index_ : ℚ)⟩
         rotation := ⟨0.04 * (c.charging_pose_index_ : ℚ),
                      0.02 * (c.charging_pose_index_ : ℚ),
                      -0.01 * (c.charging_pose_index_ : ℚ)⟩
         confidence := 1 },
       { c with charging_pose_index_ := wrapInt32 (c.charging_pose_index_ + 1) }) := by
  unfold ArmController.GeneratePoseForCommand
  simp only [beq_self_eq_true, if_true, if_neg htar, beq_iff_eq, if_neg hdist]
  refine Prod.ext ?_ rfl
  congr 2
  ring_nf

/-- The charging init step in closed form: its fixed pose, and the charging
index reset. -/
theorem GeneratePoseForCommand_charging_init (K : Constants) (c : ArmController)
    (status : Nat) (hdist : K.MessageIds.START_CHARGING ≠ K.MessageIds.CALIBRATION) :
    ArmController.GeneratePoseForCommand K
      ⟨K.MessageIds.START_CHARGING, K.SubMessageIds.ARM_MOVING_TO_INIT_POSITION, status⟩ c =
      ({ position := ⟨0.40, 0.05, 0.30⟩, rotation := ⟨0, 0, 0⟩, confidence := 1 },
       { c with charging_pose_index_ := 0 }) := by
  unfold ArmController.GeneratePoseForCommand
  simp only [beq_self_eq_true, if_true, beq_iff_eq, if_neg hdist]
  refine Prod.ext ?_ rfl
  congr 2
  norm_num

/-- C18: for every pre-increment charging index i, `GeneratePoseForCommand` on
(START_CHARGING, ARM_MOVING_TO_TARGET_POSITION) returns, in exact arithmetic,
position (0.42 + 0.015 i, 0.06 - 0.006 i, 0.29 - 0.0015 i) and rotation
(0.04 i, 0.02 i, -0.01 i). Hence the Y coordinate is strictly decreasing in
the index, and the change of each of the six coordinates per index step
differs from the change of that coordinate in the calibration calib-position
pose. -/
theorem C18_charging_pose_formula (K : Constants) (c : ArmController) (status : Nat)
    (i j : Int)
    (htar : K.SubMessageIds.ARM_MOVING_TO_TARGET_POSITION ≠
      K.SubMessageIds.ARM_MOVING_TO_INIT_POSITION)
    (hcal : K.SubMessageIds.ARM_MOVING_TO_CALIB_POSITION ≠
      K.SubMessageIds.ARM_MOVING_TO_INIT_POSITION)
    (hdist : K.MessageIds.START_CHARGING ≠ K.MessageIds.CALIBRATION) :
    (ArmController.GeneratePoseForCommand K
      ⟨K.MessageIds.START_CHARGING, K.SubMessageIds.ARM_MOVING_TO_TARGET_POSITION, status⟩
      { c with charging_pose_index_ := i }).1.position =
        ⟨0.42 + 0.015 * (i : ℚ), 0.06 - 0.006 * (i : ℚ), 0.29 - 0.0015 * (i : ℚ)⟩ ∧
    (ArmController.GeneratePoseForCommand K
      ⟨K.MessageIds.START_CHARGING, K.SubMessageIds.ARM_MOVING_TO_TARGET_POSITION, status⟩
      { c with charging_pose_index_ := i }).1.rotation =
        ⟨0.04 * (i : ℚ), 0.02 * (i : ℚ), -0.01 * (i : ℚ)⟩ ∧
    (i < j →
      (ArmController.GeneratePoseForCommand K
        ⟨K.MessageIds.START_CHARGING, K.SubMessageIds.ARM_MOVING_TO_TARGET_POSITION, status⟩
        { c with charging_pose_index_ := j }).1.position.y <
      (ArmController.GeneratePoseForCommand K
        ⟨K.MessageIds.START_CHARGING, K.SubMessageIds.ARM_MOVING_TO_TARGET_POSITION, status⟩
        { c with charging_pose_index_ := i }).1.position.y) ∧
    ((ArmController.GeneratePoseForCommand K
        ⟨K.MessageIds.START_CHARGING, K.SubMessageIds.ARM_MOVING_TO_TARGET_POSITION, status⟩
        { c with charging_pose_index_ := i + 1 }).1.position.x -
      (ArmController.GeneratePoseForCommand K
        ⟨K.MessageIds.START_CHARGING, K.SubMessageIds.ARM_MOVING_TO_TARGET_POSITION, status⟩
        { c with charging_pose_index_ := i }).1.position.x ≠
     (ArmController.GeneratePoseForCommand K
        ⟨K.MessageIds.CALIBRATION, K.SubMessageIds.ARM_MOVING_TO_CALIB_POSITION, status⟩
        { c with calibration_pose_index_ := i + 1 }).1.position.x -
      (ArmController.GeneratePoseForCommand K
        ⟨K.MessageIds.CALIBRATION, K.SubMessageIds.ARM_MOVING_TO_CALIB_POSITION, status⟩
        { c with calibration_pose_index_ := i }).1.position.x) ∧
    ((ArmController.GeneratePoseForCommand K
        ⟨K.MessageIds.START_CHARGING, K.SubMessageIds.ARM_MOVING_TO_TARGET_POSITION, status⟩
        { c with charging_pose_index_ := i + 1 }).1.position.y -
      (ArmController.GeneratePoseForCommand K
        ⟨K.MessageIds.START_CHARGING, K.SubMessageIds.ARM_MOVING_TO_TARGET_POSITION, status⟩
        { c with charging_pose_index_ := i }).1.position.y ≠
     (ArmController.GeneratePoseForCommand K
        ⟨K.MessageIds.CALIBRATION, K.SubMessageIds.ARM_MOVING_TO_CALIB_POSITION, status⟩
        { c with calibration_pose_index_ := i + 1 }).1.position.y -
      (ArmController.GeneratePoseForCommand K
        ⟨K.MessageIds.CALIBRATION, K.SubMessageIds.ARM_MOVING_TO_CALIB_POSITION, status⟩
        { c with calibration_pose_index_ := i }).1.position.y) ∧
    ((ArmController.GeneratePoseForCommand K
        ⟨K.MessageIds.START_CHARGING, K.SubMessageIds.ARM_MOVING_TO_TARGET_POSITION, status⟩
        { c with charging_pose_index_ := i + 1 }).1.position.z -
      (ArmController.GeneratePoseForCommand K
        ⟨K.MessageIds.START_CHARGING, K.SubMessageIds.ARM_MOVING_TO_TARGET_POSITION, status⟩
        { c with charging_pose_index_ := i }).1.position.z ≠
     (ArmController.GeneratePoseForCommand K
        ⟨K.MessageIds.CALIBRATION, K.SubMessageIds.ARM_MOVING_TO_CALIB_POSITION, status⟩
        { c with calibration_pose_index_ := i + 1 }).1.position.z -
      (ArmController.GeneratePoseForCommand K
        ⟨K.MessageIds.CALIBRATION, K.SubMessageIds.ARM_MOVING_TO_CALIB_POSITION, status⟩
        { c with calibration_pose_index_ := i }).1.position.z) ∧
    ((ArmController.GeneratePoseForCommand K
        ⟨K.MessageIds.START_CHARGING, K.SubMessageIds.ARM_MOVING_TO_TARGET_POSITION, status⟩
        { c with charging_pose_index_ := i + 1 }).1.rotation.x -
      (ArmController.GeneratePoseForCommand K
        ⟨K.MessageIds.START_CHARGING, K.SubMessageIds.ARM_MOVING_TO_TARGET_POSITION, status⟩
        { c with charging_pose_index_ := i }).1.rotation.x ≠
     (ArmController.GeneratePoseForCommand K
        ⟨K.MessageIds.CALIBRATION, K.SubMessageIds.ARM_MOVING_TO_CALIB_POSITION, status⟩
        { c with calibration_pose_index_ := i + 1 }).1.rotation.x -
      (ArmController.GeneratePoseForCommand K
        ⟨K.MessageIds.CALIBRATION, K.SubMessageIds.ARM_MOVING_TO_CALIB_POSITION, status⟩
        { c with calibration_pose_index_ := i }).1.rotation.x) ∧
    ((ArmController.GeneratePoseForCommand K
        ⟨K.MessageIds.START_CHARGING, K.SubMessageIds.ARM_MOVING_TO_TARGET_POSITION, status⟩
        { c with charging_pose_index_ := i + 1 }).1.rotation.y -
      (ArmController.GeneratePoseForCommand K
        ⟨K.MessageIds.START_CHARGING, K.SubMessageIds.ARM_MOVING_TO_TARGET_POSITION, status⟩
        { c with charging_pose_index_ := i }).1.rotation.y ≠
     (ArmController.GeneratePoseForCommand K
        ⟨K.MessageIds.CALIBRATION, K.SubMessageIds.ARM_MOVING_TO_CALIB_POSITION, status⟩
        { c with calibration_pose_index_ := i + 1 }).1.rotation.y -
      (ArmController.GeneratePoseForCommand K
        ⟨K.MessageIds.CALIBRATION, K.SubMessageIds.ARM_MOVING_TO_CALIB_POSITION, status⟩
        { c with calibration_pose_index_ := i }).1.rotation.y) ∧
    ((ArmController.GeneratePoseForCommand K
        ⟨K.MessageIds.START_CHARGING, K.SubMessageIds.ARM_MOVING_TO_TARGET_POSITION, status⟩
        { c with charging_pose_index_ := i + 1 }).1.rotation.z -
      (ArmController.GeneratePoseForCommand K
        ⟨K.MessageIds.START_CHARGING, K.SubMessageIds.ARM_MOVING_TO_TARGET_POSITION, status⟩
        { c with charging_pose_index_ := i }).1.rotation.z ≠
     (ArmController.GeneratePoseForCommand K
        ⟨K.MessageIds.CALIBRATION, K.SubMessageIds.ARM_MOVING_TO_CALIB_POSITION, status⟩
        { c with calibration_pose_index_ := i + 1 }).1.rotation.z -
      (ArmController.GeneratePoseForCommand K
        ⟨K.MessageIds.CALIBRATION, K.SubMessageIds.ARM_MOVING_TO_CALIB_POSITION, status⟩
        { c with calibration_pose_index_ := i }).1.rotation.z) := by
  simp only [GeneratePoseForCommand_charging_target K _ status htar hdist,
    GeneratePoseForCommand_calibration_calib K _ status hcal]
  refine ⟨trivial, trivial, ?_, ?_, ?_, ?_, ?_, ?_, ?_⟩
  · intro hij
    have hq : (i : ℚ) < (j : ℚ) := by exact_mod_cast hij
    linarith
  all_goals
    push_cast
    intro h
    ring_nf at h
    norm_num at h

/-- C18 at a concrete input: the pose at charging index 2, and Y going down
from index 2 to index 3. -/
theorem C18_charging_pose_formula_witness :
    (ArmController.GeneratePoseForCommand sampleConstants ⟨1, 4, 1⟩
      { sampleConnected with charging_pose_index_ := 2 }).1.position =
        ⟨0.42 + 0.015 * ((2 : Int) : ℚ), 0.06 - 0.006 * ((2 : Int) : ℚ),
         0.29 - 0.0015 * ((2 : Int) : ℚ)⟩ ∧
    (ArmController.GeneratePoseForCommand sampleConstants ⟨1, 4, 1⟩
      { sampleConnected with charging_pose_index_ := 3 }).1.position.y <
    (ArmController.GeneratePoseForCommand sampleConstants ⟨1, 4, 1⟩
      { sampleConnected with charging_pose_index_ := 2 }).1.position.y :=
  ⟨(C18_charging_pose_formula sampleConstants sampleConnected 1 2 3 (by decide) (by decide)
      (by decide)).1,
   (C18_charging_pose_formula sampleConstants sampleConnected 1 2 3 (by decide) (by decide)
      (by decide)).2.2.1 (by decide)⟩

/-- C19, as stated, fails: at charging index 0 the pose returned for
(START_CHARGING, ARM_MOVING_TO_TARGET_POSITION) has position (0.42, 0.06, 0.29)
while the pose returned for (START_CHARGING, ARM_MOVING_TO_INIT_POSITION) has
position (0.40, 0.05, 0.30): the two poses differ. -/
theorem C19_target_at_zero_is_not_init_counterexample :
    (ArmController.GeneratePoseForCommand sampleConstants ⟨1, 4, 1⟩
      { sampleConnected with charging_pose_index_ := 0 }).1.position = ⟨0.42, 0.06, 0.29⟩ ∧
    (ArmController.GeneratePoseForCommand sampleConstants ⟨1, 3, 1⟩
      { sampleConnected with charging_pose_index_ := 0 }).1.position = ⟨0.40, 0.05, 0.30⟩ ∧
    (ArmController.GeneratePoseForCommand sampleConstants ⟨1, 4, 1⟩
      { sampleConnected with charging_pose_index_ := 0 }).1 ≠
    (ArmController.GeneratePoseForCommand sampleConstants ⟨1, 3, 1⟩
      { sampleConnected with charging_pose_index_ := 0 }).1 := by
  have ht := GeneratePoseForCommand_charging_target sampleConstants
    { sampleConnected with charging_pose_index_ := 0 } 1 (by decide) (by decide)
  have hi := GeneratePoseForCommand_charging_init sampleConstants
    { sampleConnected with charging_pose_index_ := 0 } 1 (by decide)
  have ht2 : ArmController.GeneratePoseForCommand sampleConstants ⟨1, 4, 1⟩
      { sampleConnected with charging_pose_index_ := 0 } = _ := ht
  have hi2 : ArmController.GeneratePoseForCommand sampleConstants ⟨1, 3, 1⟩
      { sampleConnected with charging_pose_index_ := 0 } = _ := hi
  rw [ht2, hi2]
  refine ⟨?_, rfl, ?_⟩
  · show PoseItem.Position.mk _ _ _ = PoseItem.Position.mk _ _ _
    congr 1 <;> norm_num
  · intro h
    have hx := congrArg (fun p : PoseItem => p.position.x) h
    norm_num at hx

/-- C19 (amended): the charging target-position pose is a base pose of its
own, position (0.42, 0.06, 0.29) with zero rotation and confidence 1, which it
equals at index 0, displaced by a linear function of the charging index; that
base pose is not the pose of the charging init step, which has position
(0.40, 0.05, 0.30). -/
theorem C19_charging_target_own_base (K : Constants) (c : ArmController) (status : Nat)
    (i : Int)
    (htar : K.SubMessageIds.ARM_MOVING_TO_TARGET_POSITION ≠
      K.SubMessageIds.ARM_MOVING_TO_INIT_POSITION)
    (hdist : K.MessageIds.START_CHARGING ≠ K.MessageIds.CALIBRATION) :
    (ArmController.GeneratePoseForCommand K
      ⟨K.MessageIds.START_CHARGING, K.SubMessageIds.ARM_MOVING_TO_TARGET_POSITION, status⟩
      { c with charging_pose_index_ := 0 }).1 =
        { position := ⟨0.42, 0.06, 0.29⟩, rotation := ⟨0, 0, 0⟩, confidence := 1 } ∧
    (ArmController.GeneratePoseForCommand K
      ⟨K.MessageIds.START_CHARGING, K.SubMessageIds.ARM_MOVING_TO_INIT_POSITION, status⟩
      c).1 = { position := ⟨0.40, 0.05, 0.30⟩, rotation := ⟨0, 0, 0⟩, confidence := 1 } ∧
    (ArmController.GeneratePoseForCommand K
      ⟨K.MessageIds.START_CHARGING, K.SubMessageIds.ARM_MOVING_TO_TARGET_POSITION, status⟩
      { c with charging_pose_index_ := i }).1 =
        { position := ⟨0.42 + 0.015 * (i : ℚ), 0.06 + -0.006 * (i : ℚ),
                       0.29 + -0.0015 * (i : ℚ)⟩
          rotation := ⟨0 + 0.04 * (i : ℚ), 0 + 0.02 * (i : ℚ), 0 + -0.01 * (i : ℚ)⟩
          confidence := 1 } ∧
    (ArmController.GeneratePoseForCommand K
      ⟨K.MessageIds.START_CHARGING, K.SubMessageIds.ARM_MOVING_TO_TARGET_POSITION, status⟩
      { c with charging_pose_index_ := 0 }).1 ≠
    (ArmController.GeneratePoseForCommand K
      ⟨K.MessageIds.START_CHARGING, K.SubMessageIds.ARM_MOVING_TO_INIT_POSITION, status⟩
      c).1 := by
  rw [GeneratePoseForCommand_charging_target K { c with charging_pose_index_ := 0 } status
      htar hdist,
    GeneratePoseForCommand_charging_target K { c with charging_pose_index_ := i } status
      htar hdist,
    GeneratePoseForCommand_charging_init K c status hdist]
  refine ⟨?_, rfl, ?_, ?_⟩
  · show PoseItem.mk _ _ _ = PoseItem.mk _ _ _
    congr 2 <;> norm_num
  · show PoseItem.mk _ _ _ = PoseItem.mk _ _ _
    congr 2 <;> ring
  · intro h
    have hx := congrArg (fun p : PoseItem => p.position.x) h
    norm_num at hx

/-- C19 (amended) at a concrete input: the target pose at charging index 0. -/
theorem C19_charging_target_own_base_witness :
    (ArmController.GeneratePoseForCommand sampleConstants ⟨1, 4, 1⟩
      { sampleConnected with charging_pose_index_ := 0 }).1 =
        { position := ⟨0.42, 0.06, 0.29⟩, rotation := ⟨0, 0, 0⟩, confidence := 1 } :=
  (C19_charging_target_own_base sampleConstants sampleConnected 1 0 (by decide)
    (by decide)).1

/-! ## C20: device state and active connection -/

/-- An event keeps the device state and the active connection fitting
together. -/
theorem handle_connectionInvariant (E : External) (K : Constants) (c : ArmController)
    (e : Event) (hc : c.ConnectionInvariant) :
    (ArmController.handle E K c e).ConnectionInvariant := by
  have of_same : ∀ a : ArmController, a.SameControl c → a.ConnectionInvariant := by
    intro a h
    unfold ArmController.ConnectionInvariant
    rw [h.1, h.2.1]
    exact hc
  cases e with
  | OnMessage remote_id data => exact of_same _ (OnPeerMessage_sameControl E K remote_id data c)
  | OnConnection remote_id connected =>
    simp only [ArmController.handle, ArmController.OnPeerConnection]
    split_ifs
    · exact Or.inl rfl
    · exact Or.inr ⟨rfl, rfl⟩
    · exact hc
  | OnError remote_id code msg => exact hc
  | SendResponse message_id sub_id status_code payload =>
    exact of_same _ (SendResponse_sameControl E _ _ _ _ c)
  | TriggerWallEvent message_id =>
    exact of_same _ (SendResponse_sameControl E _ _ _ _ c)

/-- A sequence of events keeps the device state and the active connection
fitting together. -/
theorem run_connectionInvariant (E : External) (K : Constants) (events : List Event) :
    ∀ c : ArmController, c.ConnectionInvariant →
      (ArmController.run E K c events).ConnectionInvariant := by
  induction events with
  | nil =>
    intro c hc
    exact hc
  | cons e rest ih =>
    intro c hc
    exact ih _ (handle_connectionInvariant E K c e hc)

/-- C20: starting from a controller whose device state is IDLE (the initial
controller, with no active connection, is one) and after every finite
sequence of connect, disconnect, error, inbound-message, SendResponse and
TriggerWallEvent events: whenever the device state is DISCONNECTED the active
connection is empty, and a non-empty active connection implies device state
IDLE; the device state is never anything but IDLE or DISCONNECTED. -/
theorem C20_disconnected_implies_no_active_connection (E : External) (K : Constants)
    (c : ArmController) (events : List Event)
    (hstate : c.current_state_ = EventState.DEVICE_IDLE) :
    ((ArmController.run E K c events).current_state_ = EventState.DEVICE_DISCONNECTED →
      (ArmController.run E K c events).active_connection_ = "") ∧
    ((ArmController.run E K c events).active_connection_ ≠ "" →
      (ArmController.run E K c events).current_state_ = EventState.DEVICE_IDLE) ∧
    ((ArmController.run E K c events).current_state_ = EventState.DEVICE_IDLE ∨
      (ArmController.run E K c events).current_state_ = EventState.DEVICE_DISCONNECTED) := by
  have hinv := run_connectionInvariant E K events c (Or.inl hstate)
  rcases hinv with h | ⟨h1, h2⟩
  · refine ⟨?_, fun _ => h, Or.inl h⟩
    intro hd
    rw [h] at hd
    cases hd
  · exact ⟨fun _ => h2, fun hne => absurd h2 hne, Or.inr h1⟩

/-- C20 at a concrete input: from the freshly constructed controller, "P1"
connects, "P2" connects, "P1" is reported disconnected, a request arrives and
"P2" disconnects. -/
theorem C20_disconnected_implies_no_active_connection_witness :
    ((ArmController.run sampleExternal sampleConstants ArmController.ctor
        [Event.OnConnection "P1" true, Event.OnConnection "P2" true,
         Event.OnConnection "P1" false, Event.OnMessage "P2" [2, 3, 1],
         Event.OnConnection "P2" false]).current_state_ = EventState.DEVICE_DISCONNECTED →
      (ArmController.run sampleExternal sampleConstants ArmController.ctor
        [Event.OnConnection "P1" true, Event.OnConnection "P2" true,
         Event.OnConnection "P1" false, Event.OnMessage "P2" [2, 3, 1],
         Event.OnConnection "P2" false]).active_connection_ = "") ∧
    ((ArmController.run sampleExternal sampleConstants ArmController.ctor
        [Event.OnConnection "P1" true, Event.OnConnection "P2" true,
         Event.OnConnection "P1" false, Event.OnMessage "P2" [2, 3, 1],
         Event.OnConnection "P2" false]).active_connection_ ≠ "" →
      (ArmController.run sampleExternal sampleConstants ArmController.ctor
        [Event.OnConnection "P1" true, Event.OnConnection "P2" true,
         Event.OnConnection "P1" false, Event.OnMessage "P2" [2, 3, 1],
         Event.OnConnection "P2" false]).current_state_ = EventState.DEVICE_IDLE) :=
  ⟨(C20_disconnected_implies_no_active_connection sampleExternal sampleConstants
      ArmController.ctor
      [Event.OnConnection "P1" true, Event.OnConnection "P2" true,
       Event.OnConnection "P1" false, Event.OnMessage "P2" [2, 3, 1],
       Event.OnConnection "P2" false] rfl).1,
   (C20_disconnected_implies_no_active_connection sampleExternal sampleConstants
      ArmController.ctor
      [Event.OnConnection "P1" true, Event.OnConnection "P2" true,
       Event.OnConnection "P1" false, Event.OnMessage "P2" [2, 3, 1],
       Event.OnConnection "P2" false] rfl).2.1⟩

/-! ## C21: a failed response does not roll back the motion state -/

/-- Every handler of the table, run on the key it is registered under, is the
two-phase body on that key: PROCESSING, then `SimulateAction`. -/
theorem invoke_entry_eq (E : External) (K : Constants)
    (entry : MessageKey × MessageRouter.RouteEntry)
    (hentry : entry ∈ ArmControllerRouterTable.Get E K) (raw : List Nat)
    (c : ArmController) :
    MessageRouter.invoke entry raw c =
      ArmController.SimulateAction E K entry.1
        (ArmController.SendResponse E entry.1.message_id entry.1.sub_message_id
          K.StatusCode.PROCESSING [] c).2 := by
  simp only [ArmControllerRouterTable.Get, List.mem_cons, List.mem_singleton,
    List.not_mem_nil, or_false] at hentry
  rcases hentry with h | h | h | h | h | h | h | h | h | h | h | h | h | h | h | h | h | h | h
  all_goals subst h
  all_goals rfl

/-- The pose that `GeneratePoseForCommand` returns and the indices it leaves
depend on the controller through the two pose indices only. -/
theorem GeneratePoseForCommand_depends_on_indices (K : Constants) (key : MessageKey)
    (c c2 : ArmController)
    (hcal : c2.calibration_pose_index_ = c.calibration_pose_index_)
    (hchg : c2.charging_pose_index_ = c.charging_pose_index_) :
    (ArmController.GeneratePoseForCommand K key c2).1 =
      (ArmController.GeneratePoseForCommand K key c).1 ∧
    (ArmController.GeneratePoseForCommand K key c2).2.calibration_pose_index_ =
      (ArmController.GeneratePoseForCommand K key c).2.calibration_pose_index_ ∧
    (ArmController.GeneratePoseForCommand K key c2).2.charging_pose_index_ =
      (ArmController.GeneratePoseForCommand K key c).2.charging_pose_index_ := by
  unfold ArmController.GeneratePoseForCommand
  dsimp only
  rw [hcal, hchg]
  split_ifs
  all_goals first
    | exact ⟨rfl, rfl, rfl⟩
    | exact ⟨rfl, hcal, hchg⟩

/-- For a motion key the two-phase body records the generated pose and the
indices that `GeneratePoseForCommand` leaves, with or without a connection. -/
theorem two_phase_motion_state (E : External) (K : Constants) (key : MessageKey)
    (c : ArmController) (hmove : key.Motion K) :
    (ArmController.SimulateAction E K key
      (ArmController.SendResponse E key.message_id key.sub_message_id
        K.StatusCode.PROCESSING [] c).2).last_pose_ =
      (ArmController.GeneratePoseForCommand K key c).1 ∧
    (ArmController.SimulateAction E K key
      (ArmController.SendResponse E key.message_id key.sub_message_id
        K.StatusCode.PROCESSING [] c).2).calibration_pose_index_ =
      (ArmController.GeneratePoseForCommand K key c).2.calibration_pose_index_ ∧
    (ArmController.SimulateAction E K key
      (ArmController.SendResponse E key.message_id key.sub_message_id
        K.StatusCode.PROCESSING [] c).2).charging_pose_index_ =
      (ArmController.GeneratePoseForCommand K key c).2.charging_pose_index_ := by
  obtain ⟨peer1, h1⟩ := SendResponse_only_peer E key.message_id key.sub_message_id
    K.StatusCode.PROCESSING [] c
  obtain ⟨peer2, h2⟩ := SimulateAction_state E K key { c with peer_ := peer1 }
  rw [h1, h2, SimulateAction_payload_peer, SimulateAction_payload_moving E K key c hmove]
  exact ⟨rfl, rfl, rfl⟩

/-- A calibration key leaves the charging index alone. -/
theorem GeneratePoseForCommand_calibration_frame (K : Constants) (key : MessageKey)
    (c : ArmController) (hkey : key.message_id = K.MessageIds.CALIBRATION) :
    (ArmController.GeneratePoseForCommand K key c).2.charging_pose_index_ =
      c.charging_pose_index_ := by
  unfold ArmController.GeneratePoseForCommand
  simp only [hkey, beq_self_eq_true, if_true]
  split_ifs <;> rfl

/-- A charging key leaves the calibration index alone, START_CHARGING and
CALIBRATION being different values. -/
theorem GeneratePoseForCommand_charging_frame (K : Constants) (key : MessageKey)
    (c : ArmController) (hkey : key.message_id = K.MessageIds.START_CHARGING)
    (hdist : K.MessageIds.START_CHARGING ≠ K.MessageIds.CALIBRATION) :
    (ArmController.GeneratePoseForCommand K key c).2.calibration_pose_index_ =
      c.calibration_pose_index_ := by
  unfold ArmController.GeneratePoseForCommand
  simp only [hkey, beq_iff_eq, if_neg hdist, beq_self_eq_true, if_true]
  split_ifs <;> rfl

/-- C21: for every controller with no active connection and every entry of
the table registered under a motion key, running the handler on its key
transmits nothing and leaves the peer as it was, yet the last pose becomes
the pose that `GeneratePoseForCommand` synthesizes and the pose indices become
the ones it leaves: the same last pose and indices that the handler leaves on
any controller with the same indices before the call, a connected one
included. A calibration key leaves the charging index as it was, and a
charging key (START_CHARGING being a different value from CALIBRATION) leaves
the calibration index as it was. For (CALIBRATION,
ARM_MOVING_TO_CALIB_POSITION) the pose recorded is the calibration pose of the
index before the call and the index is incremented. -/
theorem C21_no_rollback_without_connection (E : External) (K : Constants)
    (c c2 : ArmController) (raw raw2 : List Nat)
    (entry : MessageKey × MessageRouter.RouteEntry)
    (hentry : entry ∈ ArmControllerRouterTable.Get E K) (hmove : entry.1.Motion K)
    (hc : c.active_connection_ = "")
    (hcal : c2.calibration_pose_index_ = c.calibration_pose_index_)
    (hchg : c2.charging_pose_index_ = c.charging_pose_index_) :
    (MessageRouter.invoke entry raw c).transmitted = c.transmitted ∧
    (MessageRouter.invoke entry raw c).peer_ = c.peer_ ∧
    (MessageRouter.invoke entry raw c).last_pose_ =
      (ArmController.GeneratePoseForCommand K entry.1 c).1 ∧
    (MessageRouter.invoke entry raw c).calibration_pose_index_ =
      (ArmController.GeneratePoseForCommand K entry.1 c).2.calibration_pose_index_ ∧
    (MessageRouter.invoke entry raw c).charging_pose_index_ =
      (ArmController.GeneratePoseForCommand K entry.1 c).2.charging_pose_index_ ∧
    (MessageRouter.invoke entry raw2 c2).last_pose_ =
      (MessageRouter.invoke entry raw c).last_pose_ ∧
    (MessageRouter.invoke entry raw2 c2).calibration_pose_index_ =
      (MessageRouter.invoke entry raw c).calibration_pose_index_ ∧
    (MessageRouter.invoke entry raw2 c2).charging_pose_index_ =
      (MessageRouter.invoke entry raw c).charging_pose_index_ ∧
    (entry.1.message_id = K.MessageIds.CALIBRATION →
      (MessageRouter.invoke entry raw c).charging_pose_index_ = c.charging_pose_index_) ∧
    (entry.1.message_id = K.MessageIds.START_CHARGING →
      K.MessageIds.START_CHARGING ≠ K.MessageIds.CALIBRATION →
      (MessageRouter.invoke entry raw c).calibration_pose_index_ =
        c.calibration_pose_index_) ∧
    (K.SubMessageIds.ARM_MOVING_TO_CALIB_POSITION ≠
        K.SubMessageIds.ARM_MOVING_TO_INIT_POSITION →
      (routeCalibrationCalib E K raw c).transmitted = c.transmitted ∧
      (routeCalibrationCalib E K raw c).last_pose_ =
        calibrationPoseAt c.calibration_pose_index_ ∧
      (routeCalibrationCalib E K raw c).calibration_pose_index_ =
        wrapInt32 (c.calibration_pose_index_ + 1) ∧
      (routeCalibrationCalib E K raw c).charging_pose_index_ = c.charging_pose_index_) := by
  have hrun := invoke_entry_eq E K entry hentry raw c
  have hrun2 := invoke_entry_eq E K entry hentry raw2 c2
  obtain ⟨p1, p2, p3⟩ := two_phase_motion_state E K entry.1 c hmove
  obtain ⟨q1, q2, q3⟩ := two_phase_motion_state E K entry.1 c2 hmove
  obtain ⟨d1, d2, d3⟩ := GeneratePoseForCommand_depends_on_indices K entry.1 c c2 hcal hchg
  have hquiet : MessageRouter.invoke entry raw c =
      (ArmController.SimulateAction.payload E K entry.1 c).2 :=
    hrun.trans (two_phase_no_connection E K entry.1 c hc)
  obtain ⟨pose, i, j, hframe⟩ := SimulateAction_payload_only_pose E K entry.1 c
  have hpeer : (MessageRouter.invoke entry raw c).peer_ = c.peer_ := by
    rw [hquiet, hframe]
  have htrans : (MessageRouter.invoke entry raw c).transmitted = c.transmitted := by
    unfold ArmController.transmitted
    rw [hpeer]
  rw [← hrun] at p1 p2 p3
  rw [← hrun2] at q1 q2 q3
  refine ⟨htrans, hpeer, p1, p2, p3, by rw [q1, p1, d1], by rw [q2, p2, d2],
    by rw [q3, p3, d3], ?_, ?_, ?_⟩
  · intro hkey
    rw [p3]
    exact GeneratePoseForCommand_calibration_frame K entry.1 c hkey
  · intro hkey hdist
    rw [p2]
    exact GeneratePoseForCommand_charging_frame K entry.1 c hkey hdist
  · intro hne
    have hr : routeCalibrationCalib E K raw c =
        (ArmController.SimulateAction.payload E K
          ⟨K.MessageIds.CALIBRATION, K.SubMessageIds.ARM_MOVING_TO_CALIB_POSITION,
            K.StatusCode.PROCESSING⟩ c).2 :=
      two_phase_no_connection E K
        ⟨K.MessageIds.CALIBRATION, K.SubMessageIds.ARM_MOVING_TO_CALIB_POSITION,
          K.StatusCode.PROCESSING⟩ c hc
    rw [SimulateAction_payload_moving E K _ c (Or.inr (Or.inl rfl)),
      GeneratePoseForCommand_calibration_calib K c _ hne] at hr
    rw [hr]
    exact ⟨rfl, rfl, rfl, rfl⟩

/-- C21 at a concrete input: the calib-position entry on the initialized
sample controller before any connection, compared with the connected one. -/
theorem C21_no_rollback_without_connection_witness :
    (MessageRouter.invoke (ARM_ROUTE_ENTRY sampleExternal sampleConstants 2 5) []
      sampleInitialized).transmitted = sampleInitialized.transmitted ∧
    (MessageRouter.invoke (ARM_ROUTE_ENTRY sampleExternal sampleConstants 2 5) []
      sampleInitialized).last_pose_ =
      (ArmController.GeneratePoseForCommand sampleConstants
        (ARM_ROUTE_ENTRY sampleExternal sampleConstants 2 5).1 sampleInitialized).1 ∧
    (MessageRouter.invoke (ARM_ROUTE_ENTRY sampleExternal sampleConstants 2 5) []
      sampleConnected).calibration_pose_index_ =
      (MessageRouter.invoke (ARM_ROUTE_ENTRY sampleExternal sampleConstants 2 5) []
        sampleInitialized).calibration_pose_index_ ∧
    (routeCalibrationCalib sampleExternal sampleConstants [] sampleInitialized
      ).calibration_pose_index_ = wrapInt32 (sampleInitialized.calibration_pose_index_ + 1) :=
  ⟨(C21_no_rollback_without_connection sampleExternal sampleConstants sampleInitialized
      sampleConnected [] [] (ARM_ROUTE_ENTRY sampleExternal sampleConstants 2 5)
      (by simp [ArmControllerRouterTable.Get, sampleConstants]) (by decide) rfl rfl rfl).1,
   (C21_no_rollback_without_connection sampleExternal sampleConstants sampleInitialized
      sampleConnected [] [] (ARM_ROUTE_ENTRY sampleExternal sampleConstants 2 5)
      (by simp [ArmControllerRouterTable.Get, sampleConstants]) (by decide) rfl rfl rfl).2.2.1,
   (C21_no_rollback_without_connection sampleExternal sampleConstants sampleInitialized
      sampleConnected [] [] (ARM_ROUTE_ENTRY sampleExternal sampleConstants 2 5)
      (by simp [ArmControllerRouterTable.Get, sampleConstants]) (by decide) rfl rfl
      rfl).2.2.2.2.2.2.1,
   ((C21_no_rollback_without_connection sampleExternal sampleConstants sampleInitialized
      sampleConnected [] [] (ARM_ROUTE_ENTRY sampleExternal sampleConstants 2 5)
      (by simp [ArmControllerRouterTable.Get, sampleConstants]) (by decide) rfl rfl
      rfl).2.2.2.2.2.2.2.2.2.2 (by decide)).2.2.1⟩

end perception
